import Mathlib

/-!
Verification development for the pong-websocket-server authoritative
simulation engine.  The definitions below are a shallow embedding of the
server source (`src/unnamed/part_000`): JS numbers are modelled as `ℚ`
(all reasoning here is about exact assignments and comparisons),
timestamps and durations as `ℤ` (milliseconds), scores and counters as
`ℕ`, and JS `undefined`/`null` as `Option`.  Field and function names
follow the source.
-/

namespace Pong

/-- The four paddle-owning sides (`'left' | 'right' | 'top' | 'bottom'`). -/
inductive Side
  | left
  | right
  | top
  | bottom
deriving DecidableEq, Repr

/-- The side geometrically opposite a boundary, as computed by the ternary
chains in `handleScoring` (`'left' ? 'right' : 'right' ? 'left' : 'top' ?
'bottom' : 'top'`). -/
def Side.opposite : Side → Side
  | .left => .right
  | .right => .left
  | .top => .bottom
  | .bottom => .top

/-- Player side: one of the four sides or `'spectator'`. -/
inductive PlayerSide
  | left
  | right
  | top
  | bottom
  | spectator
deriving DecidableEq, Repr

/-- `gameMode` union. -/
inductive GameMode
  | auto
  | player
  | multiplayer
deriving DecidableEq, Repr

/-- The four-way integer score record. -/
structure Score where
  left : ℕ
  right : ℕ
  top : ℕ
  bottom : ℕ
deriving DecidableEq, Repr

/-- Dynamic access `score[side]`. -/
def Score.get (sc : Score) : Side → ℕ
  | .left => sc.left
  | .right => sc.right
  | .top => sc.top
  | .bottom => sc.bottom

/-- Dynamic update `score[side] = n`. -/
def Score.set (sc : Score) : Side → ℕ → Score
  | .left, n => { sc with left := n }
  | .right, n => { sc with right := n }
  | .top, n => { sc with top := n }
  | .bottom, n => { sc with bottom := n }

/-- `score[side]++` / `score[side] += k`. -/
def Score.add (sc : Score) (s : Side) (k : ℕ) : Score :=
  sc.set s (sc.get s + k)

/-- The catalog of pickup / active-effect type tags.  `great_wall` appears
in `generatePickup`'s draw list even though the TS union omits it, so it is
included here. -/
inductive EffectType
  | speed_up
  | speed_down
  | big_ball
  | small_ball
  | drunk_ball
  | grow_paddle
  | shrink_paddle
  | reverse_controls
  | invisible_ball
  | multi_ball
  | freeze_opponent
  | super_speed
  | coin_shower
  | teleport_ball
  | gravity_in_space
  | super_striker
  | sticky_paddles
  | machine_gun
  | dynamic_playfield
  | switch_sides
  | blocker
  | time_warp
  | portal_ball
  | mirror_mode
  | quantum_ball
  | black_hole
  | lightning_storm
  | invisible_paddles
  | ball_trail_mine
  | paddle_swap
  | disco_mode
  | pac_man
  | banana_peel
  | rubber_ball
  | drunk_paddles
  | magnet_ball
  | balloon_ball
  | earthquake
  | confetti_cannon
  | hypno_ball
  | conga_line
  | arkanoid
  | attractor
  | repulsor
  | great_wall
deriving DecidableEq, Repr

/-- A collectible field pickup. -/
structure Pickup where
  id : String
  x : ℚ
  y : ℚ
  type : EffectType
  createdAt : ℤ
  size : Option ℚ
deriving DecidableEq, Repr

/-- A coin spawned by `coin_shower`. -/
structure Coin where
  id : String
  x : ℚ
  y : ℚ
  createdAt : ℤ
  size : ℚ
deriving DecidableEq, Repr

/-- A running gameplay modifier.  `originalValue` is `any` in the source but
is only ever assigned numeric field values (ball size, paddle height, ball
bounciness). -/
structure ActiveEffect where
  type : EffectType
  startTime : ℤ
  duration : ℤ
  originalValue : Option ℚ := none
  side : Option Side := none
  x : Option ℚ := none
  y : Option ℚ := none
deriving DecidableEq, Repr

/-- Element of `ball.mirrorBalls` (source type `any[]`; the shape is taken
from the `mirror_mode` creation site). -/
structure MirrorBall where
  x : ℚ
  y : ℚ
  dx : ℚ
  dy : ℚ
  id : String
deriving DecidableEq, Repr

/-- Element of `ball.quantumPositions`. -/
structure QuantumPos where
  x : ℚ
  y : ℚ
deriving DecidableEq, Repr

/-- Element of `ball.trailMines` (source type `any[]`; the engine code
modelled here only ever clears this list). -/
structure TrailMine where
  x : ℚ
  y : ℚ
deriving DecidableEq, Repr

/-- Element of `extraBalls` / `machineGunBalls` (shape from the
`multi_ball` creation site). -/
structure ExtraBall where
  x : ℚ
  y : ℚ
  dx : ℚ
  dy : ℚ
  size : ℚ
  id : String
deriving DecidableEq, Repr

/-- Element of `walls` (shape from the `blocker` creation site). -/
structure Wall where
  x : ℚ
  y : ℚ
  width : ℚ
  height : ℚ
  id : String
deriving DecidableEq, Repr

/-- Element of `blackHoles`. -/
structure BlackHole where
  x : ℚ
  y : ℚ
  radius : ℚ
  strength : ℚ
  id : String
deriving DecidableEq, Repr

/-- Element of `lightningStrikes` (source type `any[]`; only ever cleared
in the code modelled here). -/
structure LightningStrike where
  x : ℚ
  y : ℚ
deriving DecidableEq, Repr

/-- Element of `pacMans`. -/
structure PacMan where
  x : ℚ
  y : ℚ
  dx : ℚ
  dy : ℚ
  id : String
  size : ℚ
deriving DecidableEq, Repr

/-- Element of `confetti`. -/
structure Confetti where
  x : ℚ
  y : ℚ
  dx : ℚ
  dy : ℚ
  color : String
  life : ℤ
  id : String
deriving DecidableEq, Repr

/-- Element of `congaBalls`. -/
structure CongaBall where
  x : ℚ
  y : ℚ
  targetX : ℚ
  targetY : ℚ
  id : String
deriving DecidableEq, Repr

/-- Element of `arkanoidBricks`. -/
structure Brick where
  x : ℚ
  y : ℚ
  width : ℚ
  height : ℚ
  id : String
  life : ℕ
deriving DecidableEq, Repr

/-- The authoritative ball record of `GameState`.  `lastCollisionTime` is
added lazily by the source (`if (!ball.lastCollisionTime) ... = 0`); it is
carried here as a plain field initialised to `0`. -/
structure BallState where
  x : ℚ
  y : ℚ
  dx : ℚ
  dy : ℚ
  size : ℚ
  originalSize : ℚ
  isDrunk : Bool
  drunkAngle : ℚ
  isTeleporting : Bool
  lastTeleportTime : ℤ
  stuckCheckStartTime : ℤ
  stuckCheckStartX : ℚ
  lastTouchedBy : Option Side
  previousTouchedBy : Option Side
  hasGravity : Bool
  isAiming : Bool
  aimStartTime : ℤ
  aimX : ℚ
  aimY : ℚ
  aimTargetX : ℚ
  aimTargetY : ℚ
  isStuck : Bool
  stuckToPaddle : Option Side
  stuckStartTime : ℤ
  stuckOffsetX : ℚ
  stuckOffsetY : ℚ
  hasPortal : Bool
  portalX : ℚ
  portalY : ℚ
  isMirror : Bool
  mirrorBalls : List MirrorBall
  isQuantum : Bool
  quantumPositions : List QuantumPos
  hasTrailMines : Bool
  trailMines : List TrailMine
  isSlippery : Bool
  bounciness : ℚ
  isMagnetic : Bool
  isFloating : Bool
  isHypnotic : Bool
  lastCollisionTime : ℤ

/-- A vertical paddle record (`left`, `right`): position `y`, plus the `x`
coordinate present on the runtime objects. -/
structure VPaddle where
  x : ℚ
  y : ℚ
  height : ℚ
  width : ℚ
  speed : ℚ
  velocity : ℚ
  targetY : ℚ
  originalHeight : ℚ
deriving DecidableEq, Repr

/-- A horizontal paddle record (`top`, `bottom`): position `x`. -/
structure HPaddle where
  x : ℚ
  y : ℚ
  height : ℚ
  width : ℚ
  speed : ℚ
  velocity : ℚ
  targetX : ℚ
  originalWidth : ℚ
deriving DecidableEq, Repr

/-- The four paddle records. -/
structure Paddles where
  left : VPaddle
  right : VPaddle
  top : HPaddle
  bottom : HPaddle
deriving DecidableEq, Repr

/-- `decrunchEffect` record. -/
structure DecrunchEffect where
  isActive : Bool
  startTime : ℤ
  duration : ℤ
deriving DecidableEq, Repr

/-- `pickupEffect` record. -/
structure PickupEffect where
  isActive : Bool
  startTime : ℤ
  x : ℚ
  y : ℚ
deriving DecidableEq, Repr

/-- `rumbleEffect` record. -/
structure RumbleEffect where
  isActive : Bool
  startTime : ℤ
  intensity : ℚ
deriving DecidableEq, Repr

/-- `paddleVisibility` record. -/
structure PaddleVisibility where
  left : ℚ
  right : ℚ
  top : ℚ
  bottom : ℚ
deriving DecidableEq, Repr

/-- The per-room authoritative `GameState`, with the source's field
layout. -/
structure GameState where
  ball : BallState
  paddles : Paddles
  score : Score
  isPlaying : Bool
  showStartScreen : Bool
  gameMode : GameMode
  colorIndex : ℕ
  isPaused : Bool
  pauseEndTime : ℤ
  winner : Option Side
  gameEnded : Bool
  decrunchEffect : DecrunchEffect
  pickups : List Pickup
  coins : List Coin
  nextPickupTime : ℤ
  activeEffects : List ActiveEffect
  pickupEffect : PickupEffect
  rumbleEffect : RumbleEffect
  machineGunBalls : List ExtraBall
  machineGunActive : Bool
  machineGunStartTime : ℤ
  machineGunShooter : Option Side
  stickyPaddlesActive : Bool
  playfieldScale : ℚ
  playfieldScaleTarget : ℚ
  playfieldScaleStart : ℚ
  playfieldScaleTime : ℤ
  walls : List Wall
  timeWarpActive : Bool
  timeWarpFactor : ℚ
  blackHoles : List BlackHole
  lightningStrikes : List LightningStrike
  paddleVisibility : PaddleVisibility
  discoMode : Bool
  discoStartTime : ℤ
  sidesSwitched : Bool
  paddleSwapActive : Bool
  nextPaddleSwapTime : ℤ
  pacMans : List PacMan
  paddlesDrunk : Bool
  drunkStartTime : ℤ
  earthquakeActive : Bool
  earthquakeStartTime : ℤ
  confetti : List Confetti
  hypnoStartTime : ℤ
  congaBalls : List CongaBall
  extraBalls : List ExtraBall
  arkanoidBricks : List Brick
  arkanoidActive : Bool
  arkanoidMode : Bool
  arkanoidBricksHit : ℕ

/-- `PADDLE_LENGTH = 140`. -/
def PADDLE_LENGTH : ℚ := 140

/-- `PADDLE_THICKNESS = 12`. -/
def PADDLE_THICKNESS : ℚ := 12

/-- `BORDER_THICKNESS = 12`. -/
def BORDER_THICKNESS : ℚ := 12

/-- `SPEED_BOOST = 1.02`. -/
def SPEED_BOOST : ℚ := 102 / 100

/-- `createInitialGameState()`.  `rndDy` stands for the `Math.random() > 0.5`
draw deciding the sign of `ball.dy`; `now` for `Date.now()` in
`nextPickupTime`. -/
def createInitialGameState (rndDy : Bool) (now : ℤ) : GameState where
  ball :=
    { x := 400, y := 300, dx := 10, dy := if rndDy then 10 else -10
      size := 12, originalSize := 12
      isDrunk := false, drunkAngle := 0
      isTeleporting := false, lastTeleportTime := 0
      stuckCheckStartTime := 0, stuckCheckStartX := 0
      lastTouchedBy := none, previousTouchedBy := none
      hasGravity := false
      isAiming := false, aimStartTime := 0
      aimX := 0, aimY := 0, aimTargetX := 0, aimTargetY := 0
      isStuck := false, stuckToPaddle := none, stuckStartTime := 0
      stuckOffsetX := 0, stuckOffsetY := 0
      hasPortal := false, portalX := 0, portalY := 0
      isMirror := false, mirrorBalls := []
      isQuantum := false, quantumPositions := []
      hasTrailMines := false, trailMines := []
      isSlippery := false, bounciness := 1
      isMagnetic := false, isFloating := false, isHypnotic := false
      lastCollisionTime := 0 }
  paddles :=
    { left := { x := BORDER_THICKNESS * 2, y := 250, height := PADDLE_LENGTH
                width := PADDLE_THICKNESS, speed := 32, velocity := 0
                targetY := 250, originalHeight := PADDLE_LENGTH }
      right := { x := 800 - PADDLE_THICKNESS - BORDER_THICKNESS * 2, y := 250
                 height := PADDLE_LENGTH, width := PADDLE_THICKNESS
                 speed := 32, velocity := 0, targetY := 250
                 originalHeight := PADDLE_LENGTH }
      top := { x := 360, y := BORDER_THICKNESS * 2, height := PADDLE_THICKNESS
               width := PADDLE_LENGTH, speed := 32, velocity := 0
               targetX := 360, originalWidth := PADDLE_LENGTH }
      bottom := { x := 360, y := 800 - PADDLE_THICKNESS - BORDER_THICKNESS * 2
                  height := PADDLE_THICKNESS, width := PADDLE_LENGTH
                  speed := 32, velocity := 0, targetX := 360
                  originalWidth := PADDLE_LENGTH } }
  score := { left := 0, right := 0, top := 0, bottom := 0 }
  isPlaying := true
  showStartScreen := false
  gameMode := .multiplayer
  colorIndex := 0
  isPaused := false
  pauseEndTime := 0
  winner := none
  gameEnded := false
  decrunchEffect := { isActive := false, startTime := 0, duration := 0 }
  pickups := []
  coins := []
  nextPickupTime := now + 5000
  activeEffects := []
  pickupEffect := { isActive := false, startTime := 0, x := 0, y := 0 }
  rumbleEffect := { isActive := false, startTime := 0, intensity := 0 }
  machineGunBalls := []
  machineGunActive := false
  machineGunStartTime := 0
  machineGunShooter := none
  stickyPaddlesActive := false
  playfieldScale := 1
  playfieldScaleTarget := 1
  playfieldScaleStart := 1
  playfieldScaleTime := 0
  walls := []
  timeWarpActive := false
  timeWarpFactor := 1
  blackHoles := []
  lightningStrikes := []
  paddleVisibility := { left := 1, right := 1, top := 1, bottom := 1 }
  discoMode := false
  discoStartTime := 0
  sidesSwitched := false
  paddleSwapActive := false
  nextPaddleSwapTime := 0
  pacMans := []
  paddlesDrunk := false
  drunkStartTime := 0
  earthquakeActive := false
  earthquakeStartTime := 0
  confetti := []
  hypnoStartTime := 0
  congaBalls := []
  extraBalls := []
  arkanoidBricks := []
  arkanoidActive := false
  arkanoidMode := false
  arkanoidBricksHit := 0

/-- JS falsiness of an optional numeric field (`!obj1.vx` is true when the
field is `undefined` or `0`). -/
def jsFalsy : Option ℚ → Bool
  | none => true
  | some q => q = 0

/-- JS `v || d` on an optional numeric value: `undefined` and `0` fall back
to the default. -/
def jsOr (v : Option ℚ) (d : ℚ) : ℚ :=
  match v with
  | none => d
  | some q => if q = 0 then d else q

/-- `CollisionObject`: axis-aligned box with optional velocity. -/
structure CollisionObject where
  x : ℚ
  y : ℚ
  width : ℚ
  height : ℚ
  vx : Option ℚ := none
  vy : Option ℚ := none
deriving DecidableEq, Repr

/-- The `Ball` interface of the collision module. -/
structure CollisionBall where
  x : ℚ
  y : ℚ
  size : ℚ
  vx : Option ℚ := none
  vy : Option ℚ := none
  lastTouchedBy : Option Side := none
deriving DecidableEq, Repr

/-- The `Paddle` interface of the collision module. -/
structure CollisionPaddle where
  x : ℚ
  y : ℚ
  width : ℚ
  height : ℚ
  side : Side
  playerId : Option String := none
deriving DecidableEq, Repr

/-- View a paddle as a plain `CollisionObject` (structural typing in TS). -/
def CollisionPaddle.toObject (p : CollisionPaddle) : CollisionObject where
  x := p.x
  y := p.y
  width := p.width
  height := p.height

/-- `CollisionResult`. -/
structure CollisionResult where
  hit : Bool
  object1 : CollisionObject
  object2 : CollisionObject
  pointX : ℚ
  pointY : ℚ
  normalX : ℚ
  normalY : ℚ
  penetration : ℚ
  side : Side
  hitPosition : ℚ
  continuous : Bool
deriving DecidableEq, Repr

/-- `COLLISION_BUFFER = 0`. -/
def COLLISION_BUFFER : ℚ := 0

/-- The `ballObj` construction of `detectBallPaddle`: view the ball as a
square `CollisionObject` carrying its velocity. -/
def CollisionBall.toObject (b : CollisionBall) : CollisionObject where
  x := b.x
  y := b.y
  width := b.size
  height := b.size
  vx := b.vx
  vy := b.vy

/-- The `nextObj1` construction of `detectContinuous`: the object at its
next-tick position `(x + vx, y + vy)` (`undefined` velocity reads as 0). -/
def nextPosition (o : CollisionObject) : CollisionObject :=
  { o with x := o.x + o.vx.getD 0, y := o.y + o.vy.getD 0 }

namespace ServerCollisionDetector

/-- `detectAABB(obj1, obj2, buffer)`: rectangle overlap with buffer,
least-overlap-wins side resolution, midpoint collision point. -/
def detectAABB (obj1 obj2 : CollisionObject) (buffer : ℚ) : CollisionResult :=
  let b1L := obj1.x
  let b1R := obj1.x + obj1.width
  let b1T := obj1.y
  let b1B := obj1.y + obj1.height
  let b2L := obj2.x
  let b2R := obj2.x + obj2.width
  let b2T := obj2.y
  let b2B := obj2.y + obj2.height
  let hit := b1R + buffer > b2L - buffer ∧ b1L - buffer < b2R + buffer ∧
             b1B + buffer > b2T - buffer ∧ b1T - buffer < b2B + buffer
  if hit then
    let overlapLeft := b1R - b2L
    let overlapRight := b2R - b1L
    let overlapTop := b1B - b2T
    let overlapBottom := b2B - b1T
    let minOverlap := min (min overlapLeft overlapRight) (min overlapTop overlapBottom)
    let sideNormal : Side × ℚ × ℚ :=
      if minOverlap = overlapLeft then (.right, -1, 0)
      else if minOverlap = overlapRight then (.left, 1, 0)
      else if minOverlap = overlapTop then (.bottom, 0, -1)
      else (.top, 0, 1)
    { hit := true
      object1 := obj1
      object2 := obj2
      pointX := (b1L + b1R + b2L + b2R) / 4
      pointY := (b1T + b1B + b2T + b2B) / 4
      normalX := sideNormal.2.1
      normalY := sideNormal.2.2
      penetration := minOverlap
      side := sideNormal.1
      hitPosition := 1 / 2
      continuous := false }
  else
    { hit := false
      object1 := obj1
      object2 := obj2
      pointX := 0
      pointY := 0
      normalX := 0
      normalY := 0
      penetration := 0
      side := .left
      hitPosition := 0
      continuous := false }

/-- `detectContinuous(obj1, obj2, buffer)`: when the moving object carries a
(truthy) velocity, also tests the next-tick position and prefers a hit found
there. -/
def detectContinuous (obj1 obj2 : CollisionObject) (buffer : ℚ) : CollisionResult :=
  if jsFalsy obj1.vx ∧ jsFalsy obj1.vy then
    detectAABB obj1 obj2 buffer
  else
    let nextObj1 : CollisionObject := nextPosition obj1
    let currentResult := detectAABB obj1 obj2 buffer
    let nextResult := detectAABB nextObj1 obj2 buffer
    if nextResult.hit ∨ currentResult.hit then
      { (if nextResult.hit then nextResult else currentResult) with continuous := true }
    else
      currentResult

/-- `detectBallPaddle(ball, paddle)`: continuous detection plus hit-position
calculation along the paddle's long axis. -/
def detectBallPaddle (ball : CollisionBall) (paddle : CollisionPaddle) : CollisionResult :=
  let ballObj : CollisionObject := ball.toObject
  let result := detectContinuous ballObj paddle.toObject COLLISION_BUFFER
  if result.hit then
    let hitPosition :=
      if paddle.side = .left ∨ paddle.side = .right then
        let ballCenterY := ball.y + ball.size / 2
        let paddleCenterY := paddle.y + paddle.height / 2
        let relativeHit := (ballCenterY - paddleCenterY) / (paddle.height / 2)
        max 0 (min 1 ((relativeHit + 1) / 2))
      else
        let ballCenterX := ball.x + ball.size / 2
        let paddleCenterX := paddle.x + paddle.width / 2
        let relativeHit := (ballCenterX - paddleCenterX) / (paddle.width / 2)
        max 0 (min 1 ((relativeHit + 1) / 2))
    { result with hitPosition := hitPosition }
  else
    result

/-- `createWallCollisionResult(ball, side, w, h)`. -/
def createWallCollisionResult (ball : CollisionBall) (side : Side)
    (canvasWidth canvasHeight : ℚ) : CollisionResult :=
  let wallObj : CollisionObject :=
    { x := if side = .left then 0 else if side = .right then canvasWidth else 0
      y := if side = .top then 0 else if side = .bottom then canvasHeight else 0
      width := if side = .top ∨ side = .bottom then canvasWidth else 1
      height := if side = .left ∨ side = .right then canvasHeight else 1 }
  { hit := true
    object1 := { x := ball.x, y := ball.y, width := ball.size, height := ball.size
                 vx := ball.vx, vy := ball.vy }
    object2 := wallObj
    pointX := ball.x + ball.size / 2
    pointY := ball.y + ball.size / 2
    normalX := if side = .left then 1 else if side = .right then -1 else 0
    normalY := if side = .top then 1 else if side = .bottom then -1 else 0
    penetration := 0
    side := side
    hitPosition := 1 / 2
    continuous := false }

/-- `detectBallWall(ball, w, h)`: which boundary (if any) the ball has fully
crossed. -/
def detectBallWall (ball : CollisionBall) (canvasWidth canvasHeight : ℚ) :
    Option CollisionResult :=
  if ball.x + ball.size < -ball.size then
    some (createWallCollisionResult ball .left canvasWidth canvasHeight)
  else if ball.x > canvasWidth + ball.size then
    some (createWallCollisionResult ball .right canvasWidth canvasHeight)
  else if ball.y + ball.size < -ball.size then
    some (createWallCollisionResult ball .top canvasWidth canvasHeight)
  else if ball.y > canvasHeight + ball.size then
    some (createWallCollisionResult ball .bottom canvasWidth canvasHeight)
  else
    none

end ServerCollisionDetector

/-- `resetBall(gameState)`: re-center the ball with a small randomized
velocity and clear touch/aim/gravity flags.  `rndDx`, `rndDy` stand for the
two `Math.random() > 0.5` draws. -/
def resetBall (rndDx rndDy : Bool) (s : GameState) : GameState :=
  { s with ball :=
    { s.ball with
      x := 400
      y := 300
      dx := if rndDx then 3 else -3
      dy := if rndDy then 3 else -3
      lastTouchedBy := none
      previousTouchedBy := none
      hasGravity := false
      isAiming := false
      aimStartTime := 0
      aimX := 0
      aimY := 0
      aimTargetX := 0
      aimTargetY := 0 } }

/-- The `scoringPlayer` computation of `handleScoring`: who is awarded the
point for a boundary crossing on `boundaryHit`. -/
def scoringPlayer (ball : BallState) (boundaryHit : Side) : Side :=
  match ball.lastTouchedBy with
  | some lastTouched =>
    let isSelfGoal := lastTouched = boundaryHit
    match ball.previousTouchedBy with
    | some previousTouched =>
      if isSelfGoal then previousTouched else lastTouched
    | none =>
      if isSelfGoal then
        (match boundaryHit with
         | .left => .right
         | .right => .left
         | .top => .bottom
         | .bottom => .top)
      else lastTouched
  | none =>
    match boundaryHit with
    | .left => .right
    | .right => .left
    | .top => .bottom
    | .bottom => .top

/-- `handleScoring(gameState, boundaryHit)`: award one point, then either
declare a winner (threshold 1000) or enter the 2-second celebration pause,
and reset the ball.  `now` is `Date.now()`; `rndDx`, `rndDy` feed
`resetBall`. -/
def handleScoring (rndDx rndDy : Bool) (now : ℤ) (s : GameState)
    (boundaryHit : Side) : GameState :=
  let scorer := scoringPlayer s.ball boundaryHit
  let s1 := { s with score := s.score.add scorer 1 }
  let s2 :=
    if s1.score.get scorer ≥ 1000 then
      { s1 with winner := some scorer, gameEnded := true, isPlaying := false }
    else
      { s1 with isPaused := true, pauseEndTime := now + 2000 }
  resetBall rndDx rndDy s2

/-- One `updateGameLogic` tick for a single active room, with the ball /
pickup / effect physics abstracted as a parameter `phys` (its body is only
entered when the playing-and-not-ended guard passes, which is what the
temporal claims are about). -/
def updateGameLogicStep (phys : GameState → GameState) (now : ℤ)
    (s : GameState) : GameState :=
  let s1 :=
    if s.isPaused ∧ s.pauseEndTime > 0 ∧ now ≥ s.pauseEndTime then
      { s with isPaused := false, pauseEndTime := 0 }
    else s
  if s1.isPlaying ∧ ¬s1.isPaused ∧ ¬s1.gameEnded then phys s1 else s1

/-- A registered player.  The outbound `ws` channel handle is an opaque
capability outside this embedding. -/
structure Player where
  id : String
  side : PlayerSide
  roomId : String
  lastSeen : ℤ
  lastPaddleSequence : Option ℚ := none
deriving DecidableEq, Repr

/-- A room.  The player map is owned by the Session Registry and is not
read by the handlers modelled here. -/
structure GameRoom where
  id : String
  gameState : GameState
  gamemaster : Option String
  lastUpdate : ℤ
  isActive : Bool
  canvasWidth : ℚ
  canvasHeight : ℚ

/-- An axis-aligned rectangle view used by the paddle-vs-paddle overlap
check. -/
structure Rect where
  x : ℚ
  y : ℚ
  width : ℚ
  height : ℚ
deriving DecidableEq, Repr

/-- `checkPaddleCollision(p1, p2)`: strict AABB overlap. -/
def checkPaddleCollision (p1 p2 : Rect) : Bool :=
  p1.x < p2.x + p2.width ∧ p1.x + p1.width > p2.x ∧
  p1.y < p2.y + p2.height ∧ p1.y + p1.height > p2.y

/-- Rectangle view of a vertical paddle. -/
def VPaddle.rect (p : VPaddle) : Rect :=
  { x := p.x, y := p.y, width := p.width, height := p.height }

/-- Rectangle view of a horizontal paddle. -/
def HPaddle.rect (p : HPaddle) : Rect :=
  { x := p.x, y := p.y, width := p.width, height := p.height }

/-- The `update_paddle` payload.  The embedding restricts to payloads whose
position fields are numbers; `velocity`, `targetY`/`targetX` and `seq` keep
their JS optionality. -/
structure PaddleData where
  y : ℚ := 0
  x : ℚ := 0
  velocity : Option ℚ := none
  targetY : Option ℚ := none
  targetX : Option ℚ := none
  seq : Option ℚ := none
deriving DecidableEq, Repr

/-- `handlePaddleUpdate(playerId, data)` for an already-resolved player and
room (the source no-ops when either lookup fails).  Returns the updated
player record and room.  The sequence guard is the source's
`data.seq && player.lastPaddleSequence && data.seq <= player.lastPaddleSequence`,
with JS falsiness of `0`/`undefined`. -/
def handlePaddleUpdate (now : ℤ) (player : Player) (room : GameRoom)
    (data : PaddleData) : Player × GameRoom :=
  if ¬jsFalsy data.seq ∧ ¬jsFalsy player.lastPaddleSequence ∧
      data.seq.getD 0 ≤ player.lastPaddleSequence.getD 0 then
    (player, room)
  else
    let player := { player with lastPaddleSequence := data.seq, lastSeen := now }
    let gs := room.gameState
    let oldLeftY := gs.paddles.left.y
    let oldRightY := gs.paddles.right.y
    let oldTopX := gs.paddles.top.x
    let oldBottomX := gs.paddles.bottom.x
    let paddles :=
      match player.side with
      | .left =>
        let p := { gs.paddles.left with y := data.y, velocity := jsOr data.velocity 0, targetY := jsOr data.targetY data.y }
        let pd := { gs.paddles with left := p }
        let pd := if checkPaddleCollision pd.left.rect pd.top.rect then
            { pd with left := { pd.left with y := oldLeftY } } else pd
        let pd := if checkPaddleCollision pd.left.rect pd.bottom.rect then
            { pd with left := { pd.left with y := oldLeftY } } else pd
        pd
      | .right =>
        let p := { gs.paddles.right with y := data.y, velocity := jsOr data.velocity 0, targetY := jsOr data.targetY data.y }
        let pd := { gs.paddles with right := p }
        let pd := if checkPaddleCollision pd.right.rect pd.top.rect then
            { pd with right := { pd.right with y := oldRightY } } else pd
        let pd := if checkPaddleCollision pd.right.rect pd.bottom.rect then
            { pd with right := { pd.right with y := oldRightY } } else pd
        pd
      | .top =>
        let p := { gs.paddles.top with x := data.x, velocity := jsOr data.velocity 0, targetX := jsOr data.targetX data.x }
        let pd := { gs.paddles with top := p }
        let pd := if checkPaddleCollision pd.top.rect pd.left.rect then
            { pd with top := { pd.top with x := oldTopX } } else pd
        let pd := if checkPaddleCollision pd.top.rect pd.right.rect then
            { pd with top := { pd.top with x := oldTopX } } else pd
        pd
      | .bottom =>
        let p := { gs.paddles.bottom with x := data.x, velocity := jsOr data.velocity 0, targetX := jsOr data.targetX data.x }
        let pd := { gs.paddles with bottom := p }
        let pd := if checkPaddleCollision pd.bottom.rect pd.left.rect then
            { pd with bottom := { pd.bottom with x := oldBottomX } } else pd
        let pd := if checkPaddleCollision pd.bottom.rect pd.right.rect then
            { pd with bottom := { pd.bottom with x := oldBottomX } } else pd
        pd
      | .spectator => gs.paddles
    (player, { room with gameState := { gs with paddles := paddles } })

/-- The `update_game_state_delta` payload.  The `ball` spread
(`{ ...state.ball, ...deltaData.ball }`) overwrites an arbitrary subset of
ball fields; it is modelled as an arbitrary update function on the embedded
ball record.  The remaining fields mirror the source's per-field presence
checks. -/
structure GameStateDelta where
  ball : Option (BallState → BallState) := none
  score : Option Score := none
  isPlaying : Option Bool := none
  showStartScreen : Option Bool := none
  isPaused : Option Bool := none
  winner : Option (Option Side) := none
  gameEnded : Option Bool := none
  pickups : Option (List Pickup) := none
  coins : Option (List Coin) := none
  nextPickupTime : Option ℤ := none
  activeEffects : Option (List ActiveEffect) := none
  pickupEffect : Option PickupEffect := none
  decrunchEffect : Option DecrunchEffect := none

/-- `if (deltaData.f !== undefined) state.f = deltaData.f`: apply an
optional delta field through `upd` when present. -/
def applyOpt {A : Type} (o : Option A) (g : GameState)
    (upd : GameState → A → GameState) : GameState :=
  match o with
  | some v => upd g v
  | none => g

/-- `handleGameStateDeltaUpdate(playerId, roomId, deltaData)`.  `room?` is
the result of the room lookup.  Returns the room (unchanged on the
unauthorized path) and whether a broadcast was sent.  A client-supplied
`score` field is logged and discarded — scoring is server-authoritative. -/
def handleGameStateDeltaUpdate (now : ℤ) (room? : Option GameRoom)
    (playerId : String) (delta : GameStateDelta) : Option GameRoom × Bool :=
  match room? with
  | none => (none, false)
  | some room =>
    if room.gamemaster ≠ some playerId then (some room, false)
    else
      let gs := room.gameState
      let gs := applyOpt delta.ball gs fun g patch => { g with ball := patch g.ball }
      -- deltaData.score: ignored (server is authoritative for scoring)
      let gs := applyOpt delta.isPlaying gs fun g b => { g with isPlaying := b }
      let gs := applyOpt delta.showStartScreen gs fun g b => { g with showStartScreen := b }
      let gs := applyOpt delta.isPaused gs fun g b => { g with isPaused := b }
      let gs := applyOpt delta.winner gs fun g w => { g with winner := w }
      let gs := applyOpt delta.gameEnded gs fun g b => { g with gameEnded := b }
      let gs := applyOpt delta.pickups gs fun g v => { g with pickups := v }
      let gs := applyOpt delta.coins gs fun g v => { g with coins := v }
      let gs := applyOpt delta.nextPickupTime gs fun g v => { g with nextPickupTime := v }
      let gs := applyOpt delta.activeEffects gs fun g v => { g with activeEffects := v }
      let gs := applyOpt delta.pickupEffect gs fun g v => { g with pickupEffect := v }
      let gs := applyOpt delta.decrunchEffect gs fun g v => { g with decrunchEffect := v }
      (some { room with gameState := gs, lastUpdate := now }, true)

/-- `handleResetRoom(playerId, roomId)`: gamemaster-only reset to a fresh
`createInitialGameState`. -/
def handleResetRoom (now : ℤ) (rndDy : Bool) (room? : Option GameRoom)
    (playerId : String) : Option GameRoom × Bool :=
  match room? with
  | none => (none, false)
  | some room =>
    if room.gamemaster ≠ some playerId then (some room, false)
    else
      (some { room with gameState := createInitialGameState rndDy now
                        lastUpdate := now }, true)

/-- `handleGameStateUpdate(playerId, roomId, gameState)`: gamemaster-only
full state replacement. -/
def handleGameStateUpdate (now : ℤ) (room? : Option GameRoom)
    (playerId : String) (gameState : GameState) : Option GameRoom × Bool :=
  match room? with
  | none => (none, false)
  | some room =>
    if room.gamemaster ≠ some playerId then (some room, false)
    else
      (some { room with gameState := gameState, lastUpdate := now }, true)

/-- Dynamic paddle-height update `paddles[side].height = v` (used by the
`grow_paddle`/`shrink_paddle` reversal). -/
def Paddles.setHeight (pd : Paddles) : Side → ℚ → Paddles
  | .left, v => { pd with left := { pd.left with height := v } }
  | .right, v => { pd with right := { pd.right with height := v } }
  | .top, v => { pd with top := { pd.top with height := v } }
  | .bottom, v => { pd with bottom := { pd.bottom with height := v } }

/-- Dynamic paddle-height read `paddles[side].height`. -/
def Paddles.getHeight (pd : Paddles) : Side → ℚ
  | .left => pd.left.height
  | .right => pd.right.height
  | .top => pd.top.height
  | .bottom => pd.bottom.height

/-- `applyPickupEffect(gameState, pickup)`: instantiate an `ActiveEffect`
(appended to `activeEffects`) and apply the type-specific immediate
mutation.  `rnd k` is the value of the k-th `Math.random()` draw made by
the executed case (each in `[0,1]`); `now` is `Date.now()`. -/
def applyPickupEffect (rnd : ℕ → ℚ) (now : ℤ) (s : GameState)
    (pickup : Pickup) : GameState :=
  let base : ActiveEffect := { type := pickup.type, startTime := now, duration := 5000 }
  let es : ActiveEffect × GameState :=
    match pickup.type with
    | .speed_up =>
      ({ base with duration := 6000 },
       { s with ball := { s.ball with dx := s.ball.dx * 1.5, dy := s.ball.dy * 1.5 } })
    | .speed_down =>
      ({ base with duration := 6000 },
       { s with ball := { s.ball with dx := s.ball.dx * 0.4, dy := s.ball.dy * 0.4 } })
    | .big_ball =>
      ({ base with originalValue := some s.ball.size },
       { s with ball := { s.ball with size := 18 } })
    | .small_ball =>
      ({ base with originalValue := some s.ball.size },
       { s with ball := { s.ball with size := 6 } })
    | .drunk_ball =>
      ({ base with duration := 4000 },
       { s with ball := { s.ball with isDrunk := true, drunkAngle := 0 } })
    | .grow_paddle =>
      let targetSide : Side := if rnd 0 > 0.5 then .left else .right
      ({ base with side := some targetSide
                   originalValue := some (s.paddles.getHeight targetSide) },
       { s with paddles := s.paddles.setHeight targetSide
                  (min 150 (s.paddles.getHeight targetSide * 1.5)) })
    | .shrink_paddle =>
      let shrinkSide : Side := if rnd 0 > 0.5 then .left else .right
      ({ base with side := some shrinkSide
                   originalValue := some (s.paddles.getHeight shrinkSide) },
       { s with paddles := s.paddles.setHeight shrinkSide
                  (max 30 (s.paddles.getHeight shrinkSide * 0.6)) })
    | .reverse_controls => (base, s)
    | .invisible_ball => ({ base with duration := 4000 }, s)
    | .freeze_opponent =>
      ({ base with side := some (if rnd 0 > 0.5 then .left else .right)
                   duration := 3000 }, s)
    | .super_speed =>
      ({ base with duration := 3000 },
       { s with ball := { s.ball with dx := s.ball.dx * 2.5, dy := s.ball.dy * 2.5 } })
    | .sticky_paddles =>
      ({ base with duration := 15000 }, { s with stickyPaddlesActive := true })
    | .machine_gun =>
      ({ base with duration := 3000 },
       { s with machineGunActive := true, machineGunStartTime := now
                machineGunShooter := s.ball.lastTouchedBy })
    | .dynamic_playfield =>
      ({ base with duration := 15000 },
       { s with playfieldScaleStart := s.playfieldScale
                playfieldScaleTarget := 0.7 + rnd 0 * 0.6
                playfieldScaleTime := now })
    | .switch_sides =>
      ({ base with duration := 3000 },
       { s with score := { left := s.score.right, right := s.score.left
                           top := s.score.bottom, bottom := s.score.top }
                sidesSwitched := !s.sidesSwitched })
    | .time_warp =>
      ({ base with duration := 8000 },
       { s with timeWarpActive := true
                timeWarpFactor := if rnd 0 > 0.5 then 0.5 else 2.0 })
    | .gravity_in_space =>
      ({ base with duration := 10000 },
       { s with ball := { s.ball with hasGravity := true } })
    | .super_striker =>
      ({ base with duration := 4000 },
       { s with ball := { s.ball with
          isAiming := true, aimStartTime := now, aimX := s.ball.x
          aimY := s.ball.y, dx := 0, dy := 0 } })
    | .arkanoid =>
      ({ base with duration := 30000 },
       { s with
          arkanoidActive := true
          arkanoidMode := true
          arkanoidBricksHit := 0
          arkanoidBricks :=
            ((List.range 7).map fun k =>
              let i : ℤ := (k : ℤ) - 3
              ({ x := 400 + (i : ℚ) * (40 + 5) - 40 / 2, y := 300 - 20 / 2
                 width := 40, height := 20
                 id := "h_" ++ toString i, life := 1 } : Brick)) ++
            (((List.range 9).map fun k => (k : ℤ) - 4).filter (fun i => i ≠ 0)).map
              fun i =>
                ({ x := 400 - 40 / 2, y := 300 + (i : ℚ) * (20 + 5) - 20 / 2
                   width := 40, height := 20
                   id := "v_" ++ toString i, life := 1 } : Brick) })
    | .multi_ball =>
      ({ base with duration := 15000 },
       { s with extraBalls := s.extraBalls ++
          ((List.range 2).map fun i =>
            ({ x := s.ball.x + (i : ℚ) * 10, y := s.ball.y + (i : ℚ) * 10
               dx := s.ball.dx * (0.8 + (i : ℚ) * 0.2)
               dy := s.ball.dy * (0.8 + (i : ℚ) * 0.2)
               size := s.ball.size
               id := "extra_" ++ toString now ++ "_" ++ toString i } : ExtraBall)) })
    | .teleport_ball =>
      ({ base with duration := 2000 },
       { s with ball := { s.ball with
          x := 200 + rnd 0 * 400, y := 150 + rnd 1 * 300
          isTeleporting := true, lastTeleportTime := now } })
    | .rubber_ball =>
      ({ base with duration := 10000, originalValue := some s.ball.bounciness },
       { s with ball := { s.ball with bounciness := 1.5, isSlippery := false } })
    | .balloon_ball =>
      ({ base with duration := 8000, originalValue := some s.ball.bounciness },
       { s with ball := { s.ball with isFloating := true, bounciness := 0.8 } })
    | .magnet_ball =>
      ({ base with duration := 12000 },
       { s with ball := { s.ball with isMagnetic := true } })
    | .attractor =>
      ({ base with duration := 10000
                   x := some (pickup.x + jsOr pickup.size 72 / 2)
                   y := some (pickup.y + jsOr pickup.size 72 / 2) }, s)
    | .repulsor =>
      ({ base with duration := 10000
                   x := some (pickup.x + jsOr pickup.size 72 / 2)
                   y := some (pickup.y + jsOr pickup.size 72 / 2) }, s)
    | .invisible_paddles =>
      ({ base with duration := 8000 },
       { s with paddleVisibility := { left := 0.2, right := 0.2, top := 0.2, bottom := 0.2 } })
    | .drunk_paddles =>
      ({ base with duration := 10000 },
       { s with paddlesDrunk := true, drunkStartTime := now })
    | .earthquake =>
      ({ base with duration := 6000 },
       { s with earthquakeActive := true, earthquakeStartTime := now })
    | .hypno_ball =>
      ({ base with duration := 8000 },
       { s with ball := { s.ball with isHypnotic := true }, hypnoStartTime := now })
    | .disco_mode =>
      ({ base with duration := 15000 },
       { s with discoMode := true, discoStartTime := now })
    | .conga_line =>
      ({ base with duration := 12000 },
       { s with congaBalls := (List.range 3).map fun i =>
          ({ x := s.ball.x - ((i : ℚ) + 1) * 20, y := s.ball.y
             targetX := s.ball.x, targetY := s.ball.y
             id := "conga_" ++ toString i } : CongaBall) })
    | .confetti_cannon =>
      ({ base with duration := 3000 },
       { s with confetti := (List.range 20).map fun i =>
          ({ x := s.ball.x, y := s.ball.y
             dx := (rnd (3 * i) - 0.5) * 10, dy := (rnd (3 * i + 1) - 0.5) * 10
             color := "hsl(" ++ toString (rnd (3 * i + 2) * 360) ++ ", 70%, 60%)"
             life := 3000, id := "confetti_" ++ toString i } : Confetti) })
    | .coin_shower =>
      ({ base with duration := 15000 },
       { s with coins := (List.range 10).map fun i =>
          ({ id := "coin_" ++ toString now ++ "_" ++ toString i
             x := rnd (2 * i) * 600 + 100, y := rnd (2 * i + 1) * 400 + 100
             createdAt := now, size := 12 } : Coin) })
    | .blocker =>
      ({ base with duration := 20000 },
       { s with walls := (List.range 3).map fun i =>
          ({ x := rnd (2 * i) * 600 + 100, y := rnd (2 * i + 1) * 400 + 100
             width := 20, height := 60, id := "wall_" ++ toString i } : Wall) })
    | .portal_ball =>
      ({ base with duration := 15000 },
       { s with ball := { s.ball with
          hasPortal := true
          portalX := rnd 0 * 600 + 100
          portalY := rnd 1 * 400 + 100 } })
    | .mirror_mode =>
      ({ base with duration := 12000 },
       { s with ball := { s.ball with
          isMirror := true
          mirrorBalls := (List.range 2).map fun i =>
                            ({ x := 800 - s.ball.x, y := 600 - s.ball.y
                               dx := -s.ball.dx, dy := -s.ball.dy
                               id := "mirror_" ++ toString i } : MirrorBall) } })
    | .quantum_ball =>
      ({ base with duration := 8000 },
       { s with ball := { s.ball with
          isQuantum := true
          quantumPositions := (List.range 3).map fun i =>
                            ({ x := rnd (2 * i) * 600 + 100
                               y := rnd (2 * i + 1) * 400 + 100 } : QuantumPos) } })
    | .black_hole =>
      ({ base with duration := 15000 },
       { s with blackHoles := (List.range 2).map fun i =>
          ({ x := rnd (2 * i) * 600 + 100, y := rnd (2 * i + 1) * 400 + 100
             radius := 40, strength := 150
             id := "blackhole_" ++ toString i } : BlackHole) })
    | .lightning_storm =>
      ({ base with duration := 10000 }, { s with lightningStrikes := [] })
    | .ball_trail_mine =>
      ({ base with duration := 15000 },
       { s with ball := { s.ball with hasTrailMines := true, trailMines := [] } })
    | .paddle_swap =>
      ({ base with duration := 10000 },
       { s with paddleSwapActive := true, nextPaddleSwapTime := now + 2000 })
    | .pac_man =>
      ({ base with duration := 15000 },
       { s with pacMans := (List.range 3).map fun i =>
          ({ x := rnd (4 * i) * 600 + 100, y := rnd (4 * i + 1) * 400 + 100
             dx := (rnd (4 * i + 2) - 0.5) * 4, dy := (rnd (4 * i + 3) - 0.5) * 4
             id := "pacman_" ++ toString i, size := 20 } : PacMan) })
    | .banana_peel =>
      ({ base with duration := 8000, originalValue := some s.ball.bounciness },
       { s with ball := { s.ball with isSlippery := true, bounciness := 1.2 } })
    | .great_wall => (base, s)
  { es.2 with activeEffects := es.2.activeEffects ++ [es.1] }

/-- `reversePickupEffect(gameState, effect)`: the matched reversal routine
invoked when an effect expires. -/
def reversePickupEffect (s : GameState) (effect : ActiveEffect) : GameState :=
  match effect.type with
  | .big_ball | .small_ball =>
    match effect.originalValue with
    | some v => { s with ball := { s.ball with size := v } }
    | none => s
  | .drunk_ball =>
    { s with ball := { s.ball with isDrunk := false, drunkAngle := 0 } }
  | .grow_paddle | .shrink_paddle =>
    match effect.side, effect.originalValue with
    | some sd, some v => { s with paddles := s.paddles.setHeight sd v }
    | _, _ => s
  | .gravity_in_space =>
    { s with ball := { s.ball with hasGravity := false } }
  | .super_striker =>
    -- the source clears `isAiming` and then tests the just-cleared flag, so
    -- the launch branch below can never fire; translated literally
    let s1 := { s with ball := { s.ball with isAiming := false } }
    if s1.ball.isAiming then
      { s1 with ball := { s1.ball with dx := 10, dy := 0 } }
    else s1
  | .sticky_paddles => { s with stickyPaddlesActive := false }
  | .machine_gun => { s with machineGunActive := false, machineGunBalls := [] }
  | .dynamic_playfield =>
    { s with playfieldScale := 1.0, playfieldScaleTarget := 1.0 }
  | .time_warp => { s with timeWarpActive := false, timeWarpFactor := 1.0 }
  | .arkanoid =>
    { s with arkanoidBricks := [], arkanoidActive := false
             arkanoidMode := false, arkanoidBricksHit := 0 }
  | .multi_ball => { s with extraBalls := [] }
  | .teleport_ball => { s with ball := { s.ball with isTeleporting := false } }
  | .rubber_ball =>
    let s1 := match effect.originalValue with
      | some v => { s with ball := { s.ball with bounciness := v } }
      | none => s
    { s1 with ball := { s1.ball with isSlippery := false } }
  | .balloon_ball =>
    let s1 := { s with ball := { s.ball with isFloating := false } }
    match effect.originalValue with
    | some v => { s1 with ball := { s1.ball with bounciness := v } }
    | none => s1
  | .magnet_ball => { s with ball := { s.ball with isMagnetic := false } }
  | .invisible_paddles =>
    { s with paddleVisibility := { left := 1, right := 1, top := 1, bottom := 1 } }
  | .drunk_paddles => { s with paddlesDrunk := false }
  | .earthquake => { s with earthquakeActive := false }
  | .hypno_ball => { s with ball := { s.ball with isHypnotic := false } }
  | .disco_mode => { s with discoMode := false }
  | .conga_line => { s with congaBalls := [] }
  | .confetti_cannon => { s with confetti := [] }
  | .coin_shower => { s with coins := [] }
  | .blocker => { s with walls := [] }
  | .portal_ball => { s with ball := { s.ball with hasPortal := false } }
  | .mirror_mode =>
    { s with ball := { s.ball with isMirror := false, mirrorBalls := [] } }
  | .quantum_ball =>
    { s with ball := { s.ball with isQuantum := false, quantumPositions := [] } }
  | .black_hole => { s with blackHoles := [] }
  | .lightning_storm => { s with lightningStrikes := [] }
  | .ball_trail_mine =>
    { s with ball := { s.ball with hasTrailMines := false, trailMines := [] } }
  | .paddle_swap => { s with paddleSwapActive := false }
  | .pac_man => { s with pacMans := [] }
  | .banana_peel =>
    let s1 := { s with ball := { s.ball with isSlippery := false } }
    match effect.originalValue with
    | some v => { s1 with ball := { s1.ball with bounciness := v } }
    | none => s1
  | _ => s

/-- Expiry predicate `now - effect.startTime > effect.duration`. -/
def effectExpired (now : ℤ) (e : ActiveEffect) : Prop :=
  now - e.startTime > e.duration

instance (now : ℤ) (e : ActiveEffect) : Decidable (effectExpired now e) := by
  unfold effectExpired
  infer_instance

/-- One step of the expiry filter in `updateActiveEffects`: an expired
effect is reversed and dropped, a live one is kept. -/
def expireStep (now : ℤ) (acc : GameState × List ActiveEffect)
    (e : ActiveEffect) : GameState × List ActiveEffect :=
  if effectExpired now e then (reversePickupEffect acc.1 e, acc.2)
  else (acc.1, acc.2 ++ [e])

/-- `updateActiveEffects(gameState, now)`: drop every expired effect,
invoking its reversal, then run the pickup/rumble animation timers. -/
def updateActiveEffects (now : ℤ) (s : GameState) : GameState :=
  let r := s.activeEffects.foldl (expireStep now) (s, [])
  let s1 := { r.1 with activeEffects := r.2 }
  let s2 :=
    if s1.pickupEffect.isActive && decide (now - s1.pickupEffect.startTime > 1000) then
      { s1 with pickupEffect := { s1.pickupEffect with isActive := false } }
    else s1
  if s2.rumbleEffect.isActive && decide (now - s2.rumbleEffect.startTime > 500) then
    { s2 with rumbleEffect := { s2.rumbleEffect with isActive := false } }
  else s2

/-- The ball-vs-brick overlap test of the arkanoid block (non-strict
inequalities). -/
def brickCollides (ball : BallState) (brick : Brick) : Bool :=
  ball.x + ball.size ≥ brick.x ∧ ball.x ≤ brick.x + brick.width ∧
  ball.y + ball.size ≥ brick.y ∧ ball.y ≤ brick.y + brick.height

/-- Index of the brick processed by the arkanoid loop: the source iterates
from the last index downward and breaks on the first hit. -/
def lastCollidingIdx (ball : BallState) (bricks : List Brick) : Option ℕ :=
  (List.range bricks.length).reverse.find? fun i =>
    match bricks.get? i with
    | some b => brickCollides ball b
    | none => false

/-- The arkanoid brick-collision block of `updateBallPhysics`: remove the
hit brick, count it, award a point to `ball.lastTouchedBy` on every 4th
brick, reflect the ball, and on clearing the grid end arkanoid mode with a
2-point bonus.  No win-threshold check appears anywhere in this block. -/
def arkanoidStep (s : GameState) : GameState :=
  if s.arkanoidActive ∧ s.arkanoidBricks.length > 0 then
    match lastCollidingIdx s.ball s.arkanoidBricks with
    | none => s
    | some i =>
      match s.arkanoidBricks.get? i with
      | none => s
      | some brick =>
        let bricks := s.arkanoidBricks.eraseIdx i
        let hits := s.arkanoidBricksHit + 1
        let score1 :=
          if hits % 4 = 0 then
            match s.ball.lastTouchedBy with
            | some t => s.score.add t 1
            | none => s.score
          else s.score
        let brickCenterX := brick.x + brick.width / 2
        let brickCenterY := brick.y + brick.height / 2
        let ballCenterX := s.ball.x + s.ball.size / 2
        let ballCenterY := s.ball.y + s.ball.size / 2
        let deltaX := ballCenterX - brickCenterX
        let deltaY := ballCenterY - brickCenterY
        let ball1 :=
          if |deltaX| > |deltaY| then
            let b := { s.ball with dx := -s.ball.dx }
            if deltaX > 0 then { b with x := brick.x + brick.width + 1 }
            else { b with x := brick.x - s.ball.size - 1 }
          else
            let b := { s.ball with dy := -s.ball.dy }
            if deltaY > 0 then { b with y := brick.y + brick.height + 1 }
            else { b with y := brick.y - s.ball.size - 1 }
        let s1 := { s with
          ball := ball1, score := score1
          arkanoidBricks := bricks, arkanoidBricksHit := hits }
        if bricks.length = 0 then
          let s2 := { s1 with
            arkanoidActive := false, arkanoidMode := false
            activeEffects := s1.activeEffects.filter fun e => e.type ≠ EffectType.arkanoid }
          match s2.ball.lastTouchedBy with
          | some t => { s2 with score := s2.score.add t 2 }
          | none => s2
        else s1
  else s

/-- `Math.sign`. -/
def jsSign (q : ℚ) : ℚ :=
  if q > 0 then 1 else if q < 0 then -1 else 0

/-- The ball-advance and safety-clamp block of `updateBallPhysics`
(guarded by `!ball.isAiming`): move by the velocity, clamp each velocity
component to magnitude 20, and force-reset the ball when its position
magnitude exceeds 2000.  `r1`, `r2` feed the possible `resetBall`. -/
def ballMoveAndClamp (r1 r2 : Bool) (s : GameState) : GameState :=
  if s.ball.isAiming then s
  else
    let b := { s.ball with x := s.ball.x + s.ball.dx, y := s.ball.y + s.ball.dy }
    let b := if |b.dx| > 20 then { b with dx := jsSign b.dx * 20 } else b
    let b := if |b.dy| > 20 then { b with dy := jsSign b.dy * 20 } else b
    let s1 := { s with ball := b }
    if |s1.ball.x| > 2000 ∨ |s1.ball.y| > 2000 then resetBall r1 r2 s1 else s1

/-- The paddle-collision response of `updateBallPhysics`: the outgoing
velocity components and the repositioned coordinate are trigonometric
expressions of the hit position in the source; they enter here as the
parameters `ndx`, `ndy`, `npos`.  The response stamps the collision
cooldown, overwrites `lastTouchedBy` with the hit paddle's side (without
copying the old value anywhere), triggers the rumble flag and advances the
color index. -/
def paddleCollisionResponse (side : Side) (now : ℤ) (ndx ndy npos : ℚ)
    (s : GameState) : GameState :=
  let b := { s.ball with
    dx := ndx, dy := ndy, lastTouchedBy := some side
    lastCollisionTime := now }
  let b :=
    match side with
    | .left | .right => { b with x := npos }
    | .top | .bottom => { b with y := npos }
  { s with ball := b
           rumbleEffect := { isActive := true, startTime := now, intensity := 4 }
           colorIndex := (s.colorIndex + 1) % 8 }

/-- The super-striker launch on aim timeout: the launch direction is a
normalized vector toward the stored aim target (a square-root expression in
the source), entering here as `ndx`, `ndy`. -/
def aimLaunch (ndx ndy : ℚ) (s : GameState) : GameState :=
  { s with ball := { s.ball with dx := ndx, dy := ndy, isAiming := false } }

/-- The boundary-crossing branch of `updateBallPhysics`: stamp the
collision cooldown and hand over to `handleScoring`. -/
def boundaryScoringStep (r1 r2 : Bool) (now : ℤ) (side : Side)
    (s : GameState) : GameState :=
  handleScoring r1 r2 now
    { s with ball := { s.ball with lastCollisionTime := now } } side

/-- The fresh-game reset block of `handleJoinRoom` (scores to zero, ball
re-centered with randomized small velocity, play flag set, pause
cleared). -/
def joinGameReset (r1 r2 : Bool) (s : GameState) : GameState :=
  { s with
    score := { left := 0, right := 0, top := 0, bottom := 0 }
    winner := none
    gameEnded := false
    isPlaying := true
    showStartScreen := false
    gameMode := .multiplayer
    isPaused := false
    pauseEndTime := 0
    ball := { s.ball with
      x := 400, y := 300
      dx := if r1 then 3 else -3, dy := if r2 then 3 else -3 } }

/-- The stop-game block run when the last player leaves a room (also by the
idle sweep). -/
def stopGame (s : GameState) : GameState :=
  { s with isPlaying := false, isPaused := false, pauseEndTime := 0 }

/-- The pause-expiry check at the top of `updateGameLogic`. -/
def pauseExpiryStep (now : ℤ) (s : GameState) : GameState :=
  if s.isPaused ∧ s.pauseEndTime > 0 ∧ now ≥ s.pauseEndTime then
    { s with isPaused := false, pauseEndTime := 0 }
  else s

/-- `generatePickup` followed by the `nextPickupTime` update in
`updatePickups`: the freshly drawn pickup and the recomputed spawn time
enter as parameters (both are random / wall-clock driven). -/
def spawnPickup (p : Pickup) (t : ℤ) (s : GameState) : GameState :=
  { s with pickups := s.pickups ++ [p], nextPickupTime := t }

/-- The collection branch of `updatePickups` for the pickup at index `i`:
apply its effect, remove it, and start the pickup-collected animation. -/
def collectPickup (rnd : ℕ → ℚ) (now : ℤ) (i : ℕ) (s : GameState) : GameState :=
  match s.pickups.get? i with
  | none => s
  | some p =>
    let s1 := applyPickupEffect rnd now s p
    { s1 with pickups := s1.pickups.eraseIdx i
              pickupEffect := { isActive := true, startTime := now, x := p.x, y := p.y } }

/-- The server-side operations that mutate a room's `GameState` outside
gamemaster state injection.  AI paddle movement and paddle-vs-paddle
resolution only write paddle records and are covered by an arbitrary
paddle replacement; gravity / force-field accumulation only writes the
velocity components and is covered by `forcesOp`. -/
inductive ServerOp
  | pauseExpiryOp (now : ℤ)
  | aiPaddlesOp (pd : Paddles)
  | forcesOp (ndx ndy : ℚ)
  | aimLaunchOp (ndx ndy : ℚ)
  | paddleHitOp (side : Side) (now : ℤ) (ndx ndy npos : ℚ)
  | arkanoidOp
  | ballMoveOp (r1 r2 : Bool)
  | boundaryScoringOp (r1 r2 : Bool) (now : ℤ) (side : Side)
  | spawnPickupOp (p : Pickup) (t : ℤ)
  | collectPickupOp (rnd : ℕ → ℚ) (now : ℤ) (i : ℕ)
  | effectsOp (now : ℤ)
  | joinResetOp (r1 r2 : Bool)
  | resetRoomOp (rndDy : Bool) (now : ℤ)
  | stopGameOp

/-- Apply a server operation to a room's `GameState`. -/
def ServerOp.apply : ServerOp → GameState → GameState
  | .pauseExpiryOp now, s => pauseExpiryStep now s
  | .aiPaddlesOp pd, s => { s with paddles := pd }
  | .forcesOp ndx ndy, s => { s with ball := { s.ball with dx := ndx, dy := ndy } }
  | .aimLaunchOp ndx ndy, s => aimLaunch ndx ndy s
  | .paddleHitOp side now ndx ndy npos, s => paddleCollisionResponse side now ndx ndy npos s
  | .arkanoidOp, s => arkanoidStep s
  | .ballMoveOp r1 r2, s => ballMoveAndClamp r1 r2 s
  | .boundaryScoringOp r1 r2 now side, s => boundaryScoringStep r1 r2 now side s
  | .spawnPickupOp p t, s => spawnPickup p t s
  | .collectPickupOp rnd now i, s => collectPickup rnd now i s
  | .effectsOp now, s => updateActiveEffects now s
  | .joinResetOp r1 r2, s => joinGameReset r1 r2 s
  | .resetRoomOp rndDy now, _ => createInitialGameState rndDy now
  | .stopGameOp, s => stopGame s

/-- Room states reachable by server-side evolution alone: an initial state
followed by any sequence of server operations.  Gamemaster state injection
(`update_game_state` full replacement and `update_game_state_delta` ball
merging) is excluded, matching the claim's proviso. -/
inductive Reachable : GameState → Prop
  | init (rndDy : Bool) (now : ℤ) : Reachable (createInitialGameState rndDy now)
  | step (s : GameState) (op : ServerOp) : Reachable s → Reachable (op.apply s)

/-- Modelled from the spec's scoring sentence, for comparison with
`scoringPlayer`: the point goes to `lastTouchedBy` unless it equals the
crossed side (self-goal), in which case it goes to `previousTouchedBy` if
known, else to the side opposite the boundary; a never-touched ball also
awards the side opposite the boundary. -/
def specAward (last prev : Option Side) (boundary : Side) : Side :=
  match last with
  | none => boundary.opposite
  | some t =>
    if t = boundary then
      match prev with
      | some p => p
      | none => boundary.opposite
    else t

/-- Modelled from the spec's words for claim C9 (a candidate single
4-cycle, clockwise around the board left → top → right → bottom): each
side's score moves to the next side. -/
def specRotateScoresCW (sc : Score) : Score :=
  { left := sc.bottom, top := sc.left, right := sc.top, bottom := sc.right }

/-- Modelled from the spec's words for claim C9 (the other single 4-cycle,
counterclockwise): each side's score moves to the previous side. -/
def specRotateScoresCCW (sc : Score) : Score :=
  { left := sc.top, top := sc.right, right := sc.bottom, bottom := sc.left }

/-- `Math.max(0, Math.min(1, hitPosition))` in the collision response. -/
def clampedHitPosition (h : ℚ) : ℚ := max 0 (min 1 h)

/-- `(clampedHitPosition - 0.5) * 2`: hit position normalized to `[-1, 1]`
with `0` at the paddle center. -/
def normalizedPosition (h : ℚ) : ℚ := (clampedHitPosition h - 0.5) * 2

/-- The rational part of the deflection-angle formula
`normalizedPosition * maxAngle * Math.abs(normalizedPosition)`: the full
angle is `maxAngle * deflectionFactor h` with `maxAngle = π / 2.2`. -/
def deflectionFactor (h : ℚ) : ℚ :=
  normalizedPosition h * |normalizedPosition h|

/-! Helper lemmas. -/

theorem Score.get_add (sc : Score) (p q : Side) (k : ℕ) :
    (sc.add p k).get q = sc.get q + if q = p then k else 0 := by
  cases p <;> cases q <;> simp [Score.add, Score.get, Score.set]

theorem resetBall_score (r1 r2 : Bool) (s : GameState) :
    (resetBall r1 r2 s).score = s.score := rfl

theorem resetBall_winner (r1 r2 : Bool) (s : GameState) :
    (resetBall r1 r2 s).winner = s.winner := rfl

theorem resetBall_gameEnded (r1 r2 : Bool) (s : GameState) :
    (resetBall r1 r2 s).gameEnded = s.gameEnded := rfl

theorem resetBall_isPlaying (r1 r2 : Bool) (s : GameState) :
    (resetBall r1 r2 s).isPlaying = s.isPlaying := rfl

theorem resetBall_isPaused (r1 r2 : Bool) (s : GameState) :
    (resetBall r1 r2 s).isPaused = s.isPaused := rfl

theorem handleScoring_score (r1 r2 : Bool) (now : ℤ) (s : GameState) (bh : Side) :
    (handleScoring r1 r2 now s bh).score =
      s.score.add (scoringPlayer s.ball bh) 1 := by
  unfold handleScoring
  rw [resetBall_score]
  split <;> rfl

theorem scoringPlayer_eq_specAward (b : BallState) (bh : Side) :
    scoringPlayer b bh = specAward b.lastTouchedBy b.previousTouchedBy bh := by
  unfold scoringPlayer specAward Side.opposite
  cases hlt : b.lastTouchedBy with
  | none => cases bh <;> rfl
  | some t =>
    cases hpt : b.previousTouchedBy with
    | none =>
      by_cases h : t = bh
      · simp only [h, if_pos rfl]
      · simp only [if_neg h]
    | some p =>
      by_cases h : t = bh
      · simp only [h, if_pos rfl]
      · simp only [if_neg h]

/-- Claim C1: for every game state and boundary side `S` fully crossed,
`handleScoring` awards exactly one point, to `lastTouchedBy` when non-null
and different from `S`; to `previousTouchedBy` on a self-goal with a known
previous toucher; and to the side opposite `S` on a self-goal with no
previous toucher or when the ball was never touched.  In particular
`lastTouchedBy = left`, boundary `left`, `previousTouchedBy = top` awards
`top`, and a never-touched ball crossing `right` awards `left`. -/
theorem handleScoring_matches_spec (r1 r2 : Bool) (now : ℤ) (s : GameState)
    (S : Side) :
    (∀ q : Side, (handleScoring r1 r2 now s S).score.get q =
      s.score.get q +
        (if q = specAward s.ball.lastTouchedBy s.ball.previousTouchedBy S
         then 1 else 0)) ∧
    (∀ s2 : GameState, s2.ball.lastTouchedBy = some Side.left →
      s2.ball.previousTouchedBy = some Side.top →
      (handleScoring r1 r2 now s2 Side.left).score.top = s2.score.top + 1) ∧
    (∀ s3 : GameState, s3.ball.lastTouchedBy = none →
      (handleScoring r1 r2 now s3 Side.right).score.left = s3.score.left + 1) := by
  refine ⟨fun q => ?_, fun s2 h2l h2p => ?_, fun s3 h3 => ?_⟩
  · rw [handleScoring_score, Score.get_add, scoringPlayer_eq_specAward]
  · have h := handleScoring_score r1 r2 now s2 Side.left
    have hsp : scoringPlayer s2.ball Side.left = Side.top := by
      rw [scoringPlayer_eq_specAward, h2l, h2p]; rfl
    rw [hsp] at h
    have := congrArg (fun sc => Score.get sc Side.top) h
    simpa [Score.get_add] using this
  · have h := handleScoring_score r1 r2 now s3 Side.right
    have hsp : scoringPlayer s3.ball Side.right = Side.left := by
      rw [scoringPlayer_eq_specAward, h3]; rfl
    rw [hsp] at h
    have := congrArg (fun sc => Score.get sc Side.left) h
    simpa [Score.get_add] using this

/-- Witness for C1: the two concrete attribution scenarios evaluated on
explicit states. -/
theorem handleScoring_matches_spec_witness :
    (handleScoring true true 0
      { createInitialGameState true 0 with ball :=
          { (createInitialGameState true 0).ball with
            lastTouchedBy := some Side.left
            previousTouchedBy := some Side.top } }
      Side.left).score.top =
      ({ createInitialGameState true 0 with ball :=
          { (createInitialGameState true 0).ball with
            lastTouchedBy := some Side.left
            previousTouchedBy := some Side.top } } : GameState).score.top + 1 ∧
    (handleScoring true true 0 (createInitialGameState true 0)
      Side.right).score.left =
      (createInitialGameState true 0).score.left + 1 := by
  refine ⟨?_, ?_⟩
  · exact (handleScoring_matches_spec true true 0 (createInitialGameState true 0)
      Side.left).2.1 _ rfl rfl
  · exact (handleScoring_matches_spec true true 0 (createInitialGameState true 0)
      Side.right).2.2 _ rfl

theorem updateGameLogicStep_of_flags (phys : GameState → GameState) (now2 : ℤ)
    (s : GameState) (hp : s.isPaused = false) (hpl : s.isPlaying = false) :
    updateGameLogicStep phys now2 s = s := by
  unfold updateGameLogicStep
  dsimp only
  have hneg1 : ¬(s.isPaused = true ∧ s.pauseEndTime > 0 ∧ now2 ≥ s.pauseEndTime) := by
    simp [hp]
  have hneg2 : ¬(s.isPlaying = true ∧ ¬s.isPaused = true ∧ ¬s.gameEnded = true) := by
    simp [hpl]
  rw [if_neg hneg1, if_neg hneg2]

/-- Claim C2: a point that brings the scoring side to the 1000-point
threshold sets `winner`, `gameEnded` and stops play, and every subsequent
`updateGameLogic` tick (for any physics body and any wall-clock time)
leaves the room's state — ball, paddles, score, pickups, active effects —
unchanged.  `hpause` records that `handleScoring` only runs from the
unpaused physics branch of the tick. -/
theorem win_threshold_ends_game_and_ticks_idempotent
    (r1 r2 : Bool) (now : ℤ) (s : GameState) (S : Side)
    (hpause : s.isPaused = false)
    (hwin : (handleScoring r1 r2 now s S).score.get (scoringPlayer s.ball S) ≥ 1000) :
    (handleScoring r1 r2 now s S).winner = some (scoringPlayer s.ball S) ∧
    (handleScoring r1 r2 now s S).gameEnded = true ∧
    (handleScoring r1 r2 now s S).isPlaying = false ∧
    ∀ (phys : GameState → GameState) (now2 : ℤ),
      updateGameLogicStep phys now2 (handleScoring r1 r2 now s S) =
        handleScoring r1 r2 now s S := by
  have hcond : (s.score.add (scoringPlayer s.ball S) 1).get (scoringPlayer s.ball S) ≥ 1000 := by
    rw [handleScoring_score] at hwin
    exact hwin
  have hred : handleScoring r1 r2 now s S =
      resetBall r1 r2
        { s with score := s.score.add (scoringPlayer s.ball S) 1
                 winner := some (scoringPlayer s.ball S)
                 gameEnded := true
                 isPlaying := false } := by
    unfold handleScoring
    dsimp only
    split
    · rfl
    · exact absurd hcond (by assumption)
  refine ⟨?_, ?_, ?_, fun phys now2 => ?_⟩
  · rw [hred]; rfl
  · rw [hred]; rfl
  · rw [hred]; rfl
  · rw [hred]
    exact updateGameLogicStep_of_flags phys now2 _ hpause rfl

/-- Witness for C2: a concrete room at 999 points where a never-touched
ball crosses the right boundary; the game ends and a further tick with the
identity physics body is a no-op. -/
theorem win_threshold_witness :
    (handleScoring true true 5
      { createInitialGameState true 0 with
        score := { left := 999, right := 0, top := 0, bottom := 0 } }
      Side.right).winner = some Side.left ∧
    (handleScoring true true 5
      { createInitialGameState true 0 with
        score := { left := 999, right := 0, top := 0, bottom := 0 } }
      Side.right).gameEnded = true ∧
    (handleScoring true true 5
      { createInitialGameState true 0 with
        score := { left := 999, right := 0, top := 0, bottom := 0 } }
      Side.right).isPlaying = false ∧
    updateGameLogicStep id 99
      (handleScoring true true 5
        { createInitialGameState true 0 with
          score := { left := 999, right := 0, top := 0, bottom := 0 } }
        Side.right) =
      handleScoring true true 5
        { createInitialGameState true 0 with
          score := { left := 999, right := 0, top := 0, bottom := 0 } }
        Side.right := by
  have h := win_threshold_ends_game_and_ticks_idempotent true true 5
    { createInitialGameState true 0 with
      score := { left := 999, right := 0, top := 0, bottom := 0 } }
    Side.right rfl (by decide)
  exact ⟨h.1, h.2.1, h.2.2.1, h.2.2.2 id 99⟩

/-- Counterexample for C3 as stated: after accepting `seq = 5`, an update
carrying `seq = 0` — which is not strictly greater than 5 — is **accepted**
(the JS guard `data.seq && ...` treats `0` as absent): the paddle moves to
the new position and the stored sequence regresses to `0`. -/
theorem seq_zero_update_accepted :
    (0 : ℚ) ≤ 5 ∧
    (createInitialGameState true 0).paddles.left.y = 250 ∧
    (handlePaddleUpdate 7
      { id := "p1", side := PlayerSide.left, roomId := "main", lastSeen := 0
        lastPaddleSequence := some 5 }
      { id := "main", gameState := createInitialGameState true 0
        gamemaster := some "p1", lastUpdate := 0, isActive := true
        canvasWidth := 800, canvasHeight := 800 }
      { y := 123, seq := some 0 }).2.gameState.paddles.left.y = 123 ∧
    (handlePaddleUpdate 7
      { id := "p1", side := PlayerSide.left, roomId := "main", lastSeen := 0
        lastPaddleSequence := some 5 }
      { id := "main", gameState := createInitialGameState true 0
        gamemaster := some "p1", lastUpdate := 0, isActive := true
        canvasWidth := 800, canvasHeight := 800 }
      { y := 123, seq := some 0 }).1.lastPaddleSequence = some 0 := by
  refine ⟨by norm_num, rfl, ?_, by decide⟩
  norm_num [handlePaddleUpdate, jsFalsy, jsOr, checkPaddleCollision,
    VPaddle.rect, HPaddle.rect, createInitialGameState, PADDLE_LENGTH,
    PADDLE_THICKNESS, BORDER_THICKNESS]

/-- Claim C3 amended: the drop-and-monotonicity guarantee holds for
*truthy* (nonzero, present) sequence numbers: when both the incoming `seq`
and the stored last-accepted sequence are nonzero, an update with
`seq ≤ stored` is dropped with no change to the player or the room, and an
accepted update stores the strictly larger sequence.  (As the
counterexample shows, a `seq = 0` update bypasses the guard, so the claim
as stated — for *every* sequence number — fails.) -/
theorem paddle_seq_guard_for_truthy_sequences
    (now : ℤ) (p : Player) (room : GameRoom) (data : PaddleData) (q l : ℚ)
    (hq : data.seq = some q) (hq0 : q ≠ 0)
    (hl : p.lastPaddleSequence = some l) (hl0 : l ≠ 0) :
    (q ≤ l → handlePaddleUpdate now p room data = (p, room)) ∧
    (l < q →
      (handlePaddleUpdate now p room data).1.lastPaddleSequence = some q) := by
  constructor
  · intro hle
    unfold handlePaddleUpdate
    rw [if_pos]
    refine ⟨?_, ?_, ?_⟩
    · rw [hq]; simp [jsFalsy, hq0]
    · rw [hl]; simp [jsFalsy, hl0]
    · rw [hq, hl]; simpa using hle
  · intro hlt
    unfold handlePaddleUpdate
    rw [hq, hl]
    rw [if_neg]
    · intro hc
      have h3 := hc.2.2
      simp only [Option.getD_some] at h3
      exact absurd h3 (not_le.mpr hlt)

/-- Witness for C3 (amended): the spec's own `seq = 5` then `seq = 3`
scenario — the second update is dropped and nothing changes — and a
strictly larger `seq = 9` is accepted and stored. -/
theorem paddle_seq_guard_witness :
    (handlePaddleUpdate 7
      { id := "p1", side := PlayerSide.left, roomId := "main", lastSeen := 0
        lastPaddleSequence := some 5 }
      { id := "main", gameState := createInitialGameState true 0
        gamemaster := some "p1", lastUpdate := 0, isActive := true
        canvasWidth := 800, canvasHeight := 800 }
      { y := 123, seq := some 3 } =
      ({ id := "p1", side := PlayerSide.left, roomId := "main", lastSeen := 0
         lastPaddleSequence := some 5 },
       { id := "main", gameState := createInitialGameState true 0
         gamemaster := some "p1", lastUpdate := 0, isActive := true
         canvasWidth := 800, canvasHeight := 800 })) ∧
    (handlePaddleUpdate 7
      { id := "p1", side := PlayerSide.left, roomId := "main", lastSeen := 0
        lastPaddleSequence := some 5 }
      { id := "main", gameState := createInitialGameState true 0
        gamemaster := some "p1", lastUpdate := 0, isActive := true
        canvasWidth := 800, canvasHeight := 800 }
      { y := 123, seq := some 9 }).1.lastPaddleSequence = some 9 := by
  constructor
  · exact (paddle_seq_guard_for_truthy_sequences 7 _ _ _ 3 5 rfl (by norm_num)
      rfl (by norm_num)).1 (by norm_num)
  · exact (paddle_seq_guard_for_truthy_sequences 7 _ _ _ 9 5 rfl (by norm_num)
      rfl (by norm_num)).2 (by norm_num)

theorem applyOpt_score {A : Type} (o : Option A) (g : GameState)
    (upd : GameState → A → GameState)
    (h : ∀ g v, (upd g v).score = g.score) :
    (applyOpt o g upd).score = g.score := by
  cases o with
  | none => rfl
  | some v => exact h g v

/-- Claim C4: `update_game_state`, `update_game_state_delta` and
`reset_room` from a sender who is not the room's gamemaster (or naming an
unknown room) leave the room unchanged and broadcast nothing; and even for
the gamemaster, a delta carrying a `score` field leaves all four score
values untouched. -/
theorem gamemaster_only_and_score_discarded
    (now : ℤ) (playerId : String) (delta : GameStateDelta)
    (gsNew : GameState) (rndDy : Bool) :
    (∀ room? : Option GameRoom,
      (∀ room, room? = some room → room.gamemaster ≠ some playerId) →
      handleGameStateDeltaUpdate now room? playerId delta = (room?, false) ∧
      handleResetRoom now rndDy room? playerId = (room?, false) ∧
      handleGameStateUpdate now room? playerId gsNew = (room?, false)) ∧
    (∀ (room : GameRoom) (sc : Score), room.gamemaster = some playerId →
      delta.score = some sc →
      Option.map (fun r => r.gameState.score)
        (handleGameStateDeltaUpdate now (some room) playerId delta).1 =
        some room.gameState.score) := by
  constructor
  · intro room? hroom
    refine ⟨?_, ?_, ?_⟩
    · cases room? with
      | none => rfl
      | some room => simp [handleGameStateDeltaUpdate, hroom room rfl]
    · cases room? with
      | none => rfl
      | some room => simp [handleResetRoom, hroom room rfl]
    · cases room? with
      | none => rfl
      | some room => simp [handleGameStateUpdate, hroom room rfl]
  · intro room sc hgm _
    simp only [handleGameStateDeltaUpdate]
    rw [hgm, if_neg (show ¬(some playerId ≠ some playerId) from fun hc => hc rfl)]
    simp only [Option.map_some']
    rw [applyOpt_score delta.decrunchEffect _ (fun g v => { g with decrunchEffect := v }) (fun _ _ => rfl)]
    rw [applyOpt_score delta.pickupEffect _ (fun g v => { g with pickupEffect := v }) (fun _ _ => rfl)]
    rw [applyOpt_score delta.activeEffects _ (fun g v => { g with activeEffects := v }) (fun _ _ => rfl)]
    rw [applyOpt_score delta.nextPickupTime _ (fun g v => { g with nextPickupTime := v }) (fun _ _ => rfl)]
    rw [applyOpt_score delta.coins _ (fun g v => { g with coins := v }) (fun _ _ => rfl)]
    rw [applyOpt_score delta.pickups _ (fun g v => { g with pickups := v }) (fun _ _ => rfl)]
    rw [applyOpt_score delta.gameEnded _ (fun g v => { g with gameEnded := v }) (fun _ _ => rfl)]
    rw [applyOpt_score delta.winner _ (fun g v => { g with winner := v }) (fun _ _ => rfl)]
    rw [applyOpt_score delta.isPaused _ (fun g v => { g with isPaused := v }) (fun _ _ => rfl)]
    rw [applyOpt_score delta.showStartScreen _ (fun g v => { g with showStartScreen := v }) (fun _ _ => rfl)]
    rw [applyOpt_score delta.isPlaying _ (fun g v => { g with isPlaying := v }) (fun _ _ => rfl)]
    rw [applyOpt_score delta.ball _ (fun g patch => { g with ball := patch g.ball }) (fun _ _ => rfl)]

/-- Witness for C4: a non-gamemaster sender and an unknown room are both
no-ops, and a gamemaster delta carrying a score is discarded. -/
theorem gamemaster_only_witness :
    (handleGameStateDeltaUpdate 3 none "p1"
      { score := some { left := 9, right := 9, top := 9, bottom := 9 } } =
      (none, false)) ∧
    (handleGameStateDeltaUpdate 3
      (some { id := "r", gameState := createInitialGameState true 0
              gamemaster := some "boss", lastUpdate := 0, isActive := true
              canvasWidth := 800, canvasHeight := 800 }) "p1"
      { score := some { left := 9, right := 9, top := 9, bottom := 9 } } =
      (some { id := "r", gameState := createInitialGameState true 0
              gamemaster := some "boss", lastUpdate := 0, isActive := true
              canvasWidth := 800, canvasHeight := 800 }, false)) ∧
    (Option.map (fun r => r.gameState.score)
      (handleGameStateDeltaUpdate 3
        (some { id := "r", gameState := createInitialGameState true 0
                gamemaster := some "p1", lastUpdate := 0, isActive := true
                canvasWidth := 800, canvasHeight := 800 }) "p1"
        { score := some { left := 9, right := 9, top := 9, bottom := 9 } }).1 =
      some (createInitialGameState true 0).score) := by
  refine ⟨?_, ?_, ?_⟩
  · exact ((gamemaster_only_and_score_discarded 3 "p1" _
      (createInitialGameState true 0) true).1 none (by intro r hr; cases hr)).1
  · exact ((gamemaster_only_and_score_discarded 3 "p1" _
      (createInitialGameState true 0) true).1 _
      (by intro r hr; cases hr; decide)).1
  · exact (gamemaster_only_and_score_discarded 3 "p1" _
      (createInitialGameState true 0) true).2 _
      { left := 9, right := 9, top := 9, bottom := 9 } rfl rfl

theorem foldl_expireStep_keep (now : ℤ) (l : List ActiveEffect)
    (g : GameState) (acc : List ActiveEffect)
    (h : ∀ e ∈ l, ¬effectExpired now e) :
    l.foldl (expireStep now) (g, acc) = (g, acc ++ l) := by
  induction l generalizing acc with
  | nil => simp
  | cons e t ih =>
    have he : ¬effectExpired now e := h e (List.mem_cons_self e t)
    simp only [List.foldl_cons]
    rw [show expireStep now (g, acc) e = (g, acc ++ [e]) from by
      unfold expireStep; rw [if_neg he]]
    rw [ih (acc ++ [e]) fun e' he' => h e' (List.mem_cons_of_mem _ he')]
    simp

theorem updateActiveEffects_ball_paddles (now : ℤ) (g : GameState)
    (l : List ActiveEffect) (E : ActiveEffect)
    (hg : g.activeEffects = l ++ [E])
    (hl : ∀ e ∈ l, ¬effectExpired now e)
    (hE : effectExpired now E) :
    (updateActiveEffects now g).ball = (reversePickupEffect g E).ball ∧
    (updateActiveEffects now g).paddles = (reversePickupEffect g E).paddles := by
  unfold updateActiveEffects
  rw [hg, List.foldl_append, foldl_expireStep_keep now l g [] hl]
  simp only [List.foldl_cons, List.foldl_nil]
  simp only [show expireStep now (g, [] ++ l) E = (reversePickupEffect g E, [] ++ l) from by
    unfold expireStep; rw [if_pos hE]]
  constructor <;> (dsimp only; split <;> (try split) <;> rfl)

/-- Claim C5: for each pickup type whose apply case saves an
`originalValue` (`big_ball`, `small_ball`, `grow_paddle`, `shrink_paddle`,
`rubber_ball`, `balloon_ball`, `banana_peel`), applying the effect and then
letting it expire through `updateActiveEffects` restores the mutated
numeric field — ball size, the chosen paddle's height, ball bounciness —
to exactly its pre-apply value, provided no other active effect expires
(and hence mutates fields) in between.  `now - t0 > 10000` exceeds every
one of these durations (at most 10 s), so the applied effect has
expired. -/
theorem effect_expiry_restores_original
    (rnd : ℕ → ℚ) (t0 now : ℤ) (s : GameState) (pk : Pickup)
    (hty : pk.type = EffectType.big_ball ∨ pk.type = EffectType.small_ball ∨
           pk.type = EffectType.grow_paddle ∨ pk.type = EffectType.shrink_paddle ∨
           pk.type = EffectType.rubber_ball ∨ pk.type = EffectType.balloon_ball ∨
           pk.type = EffectType.banana_peel)
    (hothers : ∀ e ∈ s.activeEffects, ¬effectExpired now e)
    (hexp : now - t0 > 10000) :
    (updateActiveEffects now (applyPickupEffect rnd t0 s pk)).ball.size = s.ball.size ∧
    (updateActiveEffects now (applyPickupEffect rnd t0 s pk)).paddles.left.height =
      s.paddles.left.height ∧
    (updateActiveEffects now (applyPickupEffect rnd t0 s pk)).paddles.right.height =
      s.paddles.right.height ∧
    (updateActiveEffects now (applyPickupEffect rnd t0 s pk)).ball.bounciness =
      s.ball.bounciness := by
  obtain ⟨pid, px, py, ty, pca, psz⟩ := pk
  rcases hty with rfl | rfl | rfl | rfl | rfl | rfl | rfl
  · have h := updateActiveEffects_ball_paddles now
      (applyPickupEffect rnd t0 s ⟨pid, px, py, EffectType.big_ball, pca, psz⟩)
      s.activeEffects _ rfl hothers (by unfold effectExpired; dsimp only; omega)
    exact ⟨by rw [h.1]; rfl, by rw [h.2]; rfl, by rw [h.2]; rfl, by rw [h.1]; rfl⟩
  · have h := updateActiveEffects_ball_paddles now
      (applyPickupEffect rnd t0 s ⟨pid, px, py, EffectType.small_ball, pca, psz⟩)
      s.activeEffects _ rfl hothers (by unfold effectExpired; dsimp only; omega)
    exact ⟨by rw [h.1]; rfl, by rw [h.2]; rfl, by rw [h.2]; rfl, by rw [h.1]; rfl⟩
  · by_cases hr : rnd 0 > (0.5 : ℚ)
    · have h := updateActiveEffects_ball_paddles now
        (applyPickupEffect rnd t0 s ⟨pid, px, py, EffectType.grow_paddle, pca, psz⟩)
        s.activeEffects _ rfl hothers (by unfold effectExpired; dsimp only; omega)
      refine ⟨by rw [h.1]; rfl, ?_, ?_, by rw [h.1]; rfl⟩ <;>
        rw [h.2] <;>
        simp [if_pos hr, reversePickupEffect, applyPickupEffect,
          Paddles.setHeight, Paddles.getHeight]
    · have h := updateActiveEffects_ball_paddles now
        (applyPickupEffect rnd t0 s ⟨pid, px, py, EffectType.grow_paddle, pca, psz⟩)
        s.activeEffects _ rfl hothers (by unfold effectExpired; dsimp only; omega)
      refine ⟨by rw [h.1]; rfl, ?_, ?_, by rw [h.1]; rfl⟩ <;>
        rw [h.2] <;>
        simp [if_neg hr, reversePickupEffect, applyPickupEffect,
          Paddles.setHeight, Paddles.getHeight]
  · by_cases hr : rnd 0 > (0.5 : ℚ)
    · have h := updateActiveEffects_ball_paddles now
        (applyPickupEffect rnd t0 s ⟨pid, px, py, EffectType.shrink_paddle, pca, psz⟩)
        s.activeEffects _ rfl hothers (by unfold effectExpired; dsimp only; omega)
      refine ⟨by rw [h.1]; rfl, ?_, ?_, by rw [h.1]; rfl⟩ <;>
        rw [h.2] <;>
        simp [if_pos hr, reversePickupEffect, applyPickupEffect,
          Paddles.setHeight, Paddles.getHeight]
    · have h := updateActiveEffects_ball_paddles now
        (applyPickupEffect rnd t0 s ⟨pid, px, py, EffectType.shrink_paddle, pca, psz⟩)
        s.activeEffects _ rfl hothers (by unfold effectExpired; dsimp only; omega)
      refine ⟨by rw [h.1]; rfl, ?_, ?_, by rw [h.1]; rfl⟩ <;>
        rw [h.2] <;>
        simp [if_neg hr, reversePickupEffect, applyPickupEffect,
          Paddles.setHeight, Paddles.getHeight]
  · have h := updateActiveEffects_ball_paddles now
      (applyPickupEffect rnd t0 s ⟨pid, px, py, EffectType.rubber_ball, pca, psz⟩)
      s.activeEffects _ rfl hothers (by unfold effectExpired; dsimp only; omega)
    exact ⟨by rw [h.1]; rfl, by rw [h.2]; rfl, by rw [h.2]; rfl, by rw [h.1]; rfl⟩
  · have h := updateActiveEffects_ball_paddles now
      (applyPickupEffect rnd t0 s ⟨pid, px, py, EffectType.balloon_ball, pca, psz⟩)
      s.activeEffects _ rfl hothers (by unfold effectExpired; dsimp only; omega)
    exact ⟨by rw [h.1]; rfl, by rw [h.2]; rfl, by rw [h.2]; rfl, by rw [h.1]; rfl⟩
  · have h := updateActiveEffects_ball_paddles now
      (applyPickupEffect rnd t0 s ⟨pid, px, py, EffectType.banana_peel, pca, psz⟩)
      s.activeEffects _ rfl hothers (by unfold effectExpired; dsimp only; omega)
    exact ⟨by rw [h.1]; rfl, by rw [h.2]; rfl, by rw [h.2]; rfl, by rw [h.1]; rfl⟩

/-- Witness for C5: a `big_ball` pickup applied to the initial state and
expired 20 s later restores ball size 12 (and every other tracked field). -/
theorem effect_expiry_restores_original_witness :
    (updateActiveEffects 20000 (applyPickupEffect (fun _ => 0) 0
      (createInitialGameState true 0)
      { id := "pk", x := 0, y := 0, type := EffectType.big_ball, createdAt := 0
        size := none })).ball.size = (createInitialGameState true 0).ball.size ∧
    (updateActiveEffects 20000 (applyPickupEffect (fun _ => 0) 0
      (createInitialGameState true 0)
      { id := "pk", x := 0, y := 0, type := EffectType.big_ball, createdAt := 0
        size := none })).paddles.left.height =
      (createInitialGameState true 0).paddles.left.height ∧
    (updateActiveEffects 20000 (applyPickupEffect (fun _ => 0) 0
      (createInitialGameState true 0)
      { id := "pk", x := 0, y := 0, type := EffectType.big_ball, createdAt := 0
        size := none })).paddles.right.height =
      (createInitialGameState true 0).paddles.right.height ∧
    (updateActiveEffects 20000 (applyPickupEffect (fun _ => 0) 0
      (createInitialGameState true 0)
      { id := "pk", x := 0, y := 0, type := EffectType.big_ball, createdAt := 0
        size := none })).ball.bounciness =
      (createInitialGameState true 0).ball.bounciness :=
  effect_expiry_restores_original (fun _ => 0) 0 20000
    (createInitialGameState true 0)
    { id := "pk", x := 0, y := 0, type := EffectType.big_ball, createdAt := 0
      size := none }
    (Or.inl rfl)
    (fun e he => absurd he (List.not_mem_nil e))
    (by norm_num)

theorem updateGameLogicStep_runs (phys : GameState → GameState) (now : ℤ)
    (s : GameState) (hp : s.isPaused = false) (hpl : s.isPlaying = true)
    (hge : s.gameEnded = false) :
    updateGameLogicStep phys now s = phys s := by
  unfold updateGameLogicStep
  dsimp only
  have h1 : ¬(s.isPaused = true ∧ s.pauseEndTime > 0 ∧ now ≥ s.pauseEndTime) := by
    simp [hp]
  have h2 : s.isPlaying = true ∧ ¬s.isPaused = true ∧ ¬s.gameEnded = true := by
    simp [hp, hpl, hge]
  rw [if_neg h1, if_pos h2]

theorem arkanoidStep_keeps_flags (s : GameState) :
    (arkanoidStep s).isPaused = s.isPaused ∧
    (arkanoidStep s).isPlaying = s.isPlaying ∧
    (arkanoidStep s).gameEnded = s.gameEnded := by
  unfold arkanoidStep
  refine ⟨?_, ?_, ?_⟩ <;>
    (repeat' first | split | dsimp only)

/-- The state used to refute claim C6: score 999 for `left`, arkanoid mode
active with two bricks and three bricks already hit, the ball (last touched
by `left`) overlapping the second brick. -/
def arkanoidCounterexampleState : GameState :=
  { createInitialGameState true 0 with
    score := { left := 999, right := 0, top := 0, bottom := 0 }
    ball := { (createInitialGameState true 0).ball with lastTouchedBy := some Side.left }
    arkanoidActive := true
    arkanoidBricksHit := 3
    arkanoidBricks :=
      [{ x := 0, y := 0, width := 40, height := 20, id := "b0", life := 1 },
       { x := 400, y := 300, width := 40, height := 20, id := "b1", life := 1 }] }

/-- Counterexample for C6 as stated: the arkanoid brick-collision scoring
(inside `updateBallPhysics`) increments the score with no win-threshold
check, so one brick hit takes `left` from 999 to exactly 1000 while
`gameEnded` stays false, `isPlaying` stays true, and the next tick still
enters the physics branch — the invariant of the claim is violated. -/
theorem arkanoid_scoring_exceeds_threshold :
    (arkanoidStep arkanoidCounterexampleState).score.left = 1000 ∧
    (arkanoidStep arkanoidCounterexampleState).gameEnded = false ∧
    (arkanoidStep arkanoidCounterexampleState).isPlaying = true ∧
    ∀ (phys : GameState → GameState) (now : ℤ),
      updateGameLogicStep phys now (arkanoidStep arkanoidCounterexampleState) =
        phys (arkanoidStep arkanoidCounterexampleState) := by
  have hflags := arkanoidStep_keeps_flags arkanoidCounterexampleState
  have hidx : lastCollidingIdx arkanoidCounterexampleState.ball
      arkanoidCounterexampleState.arkanoidBricks = some 1 := by
    norm_num [lastCollidingIdx, brickCollides, arkanoidCounterexampleState,
      createInitialGameState, List.range_succ]
  have hscore : (arkanoidStep arkanoidCounterexampleState).score.left = 1000 := by
    unfold arkanoidStep
    rw [if_pos (by constructor <;> decide)]
    rw [hidx]
    norm_num [arkanoidCounterexampleState, createInitialGameState,
      Score.add, Score.get, Score.set]
  refine ⟨hscore, hflags.2.2, hflags.2.1, fun phys now => ?_⟩
  exact updateGameLogicStep_runs phys now _ hflags.1 hflags.2.1 hflags.2.2

/-- Claim C6 amended: `handleScoring` itself does preserve the threshold
invariant — starting below 1000 everywhere, a side at or above 1000 after
an award implies the game has ended with that side as winner and play
stopped.  (The claim as stated fails: the arkanoid brick scoring path
increments the score without any win check, per the counterexample.) -/
theorem handleScoring_enforces_win_threshold
    (r1 r2 : Bool) (now : ℤ) (s : GameState) (bh : Side)
    (hall : ∀ q : Side, s.score.get q < 1000) :
    ∀ q : Side, (handleScoring r1 r2 now s bh).score.get q ≥ 1000 →
      (handleScoring r1 r2 now s bh).gameEnded = true ∧
      (handleScoring r1 r2 now s bh).winner = some q ∧
      (handleScoring r1 r2 now s bh).isPlaying = false := by
  intro q hq
  rw [handleScoring_score] at hq
  by_cases hqs : q = scoringPlayer s.ball bh
  · subst hqs
    have hred : handleScoring r1 r2 now s bh =
        resetBall r1 r2
          { s with score := s.score.add (scoringPlayer s.ball bh) 1
                   winner := some (scoringPlayer s.ball bh)
                   gameEnded := true
                   isPlaying := false } := by
      unfold handleScoring
      dsimp only
      split
      · rfl
      · exact absurd hq (by assumption)
    rw [hred]
    exact ⟨rfl, rfl, rfl⟩
  · exfalso
    rw [Score.get_add, if_neg hqs] at hq
    have := hall q
    omega

/-- Witness for C6 (amended): from the initial state a point awarded on a
right-boundary crossing leaves every score below 1000, vacuously satisfying
the threshold implication; and at 999 points the award does end the game. -/
theorem handleScoring_enforces_win_threshold_witness :
    ((handleScoring true true 5
        { createInitialGameState true 0 with
          score := { left := 999, right := 0, top := 0, bottom := 0 } }
        Side.right).gameEnded = true ∧
      (handleScoring true true 5
        { createInitialGameState true 0 with
          score := { left := 999, right := 0, top := 0, bottom := 0 } }
        Side.right).winner = some Side.left ∧
      (handleScoring true true 5
        { createInitialGameState true 0 with
          score := { left := 999, right := 0, top := 0, bottom := 0 } }
        Side.right).isPlaying = false) :=
  handleScoring_enforces_win_threshold true true 5
    { createInitialGameState true 0 with
      score := { left := 999, right := 0, top := 0, bottom := 0 } }
    Side.right (by intro q; cases q <;> decide) Side.left (by decide)

theorem jsFalsy_getD_eq_zero (v : Option ℚ) (h : jsFalsy v = true) :
    v.getD 0 = 0 := by
  cases v with
  | none => rfl
  | some q =>
    simp only [jsFalsy, decide_eq_true_eq] at h
    simp [h]

theorem nextPosition_of_falsy (o : CollisionObject)
    (hx : jsFalsy o.vx = true) (hy : jsFalsy o.vy = true) :
    nextPosition o = o := by
  obtain ⟨x, y, w, h, vx, vy⟩ := o
  simp only [nextPosition]
  simp only at hx hy
  rw [jsFalsy_getD_eq_zero vx hx, jsFalsy_getD_eq_zero vy hy]
  simp

/-- Claim C7: a ball whose current-position AABB does not overlap a paddle
but whose next-tick AABB (at `x + vx`, `y + vy`) does overlap it registers
as a hit in the same tick, and the result is marked `continuous` — both
for `detectContinuous` and for `detectBallPaddle` built on it. -/
theorem continuous_detection_prevents_tunneling
    (ball : CollisionBall) (paddle : CollisionPaddle)
    (hcur : (ServerCollisionDetector.detectAABB ball.toObject paddle.toObject
      COLLISION_BUFFER).hit = false)
    (hnext : (ServerCollisionDetector.detectAABB (nextPosition ball.toObject)
      paddle.toObject COLLISION_BUFFER).hit = true) :
    (ServerCollisionDetector.detectContinuous ball.toObject paddle.toObject
      COLLISION_BUFFER).hit = true ∧
    (ServerCollisionDetector.detectContinuous ball.toObject paddle.toObject
      COLLISION_BUFFER).continuous = true ∧
    (ServerCollisionDetector.detectBallPaddle ball paddle).hit = true ∧
    (ServerCollisionDetector.detectBallPaddle ball paddle).continuous = true := by
  have hmain :
      (ServerCollisionDetector.detectContinuous ball.toObject paddle.toObject
        COLLISION_BUFFER).hit = true ∧
      (ServerCollisionDetector.detectContinuous ball.toObject paddle.toObject
        COLLISION_BUFFER).continuous = true := by
    unfold ServerCollisionDetector.detectContinuous
    dsimp only
    split
    · next hfal =>
      exfalso
      rw [nextPosition_of_falsy ball.toObject hfal.1 hfal.2] at hnext
      rw [hnext] at hcur
      exact Bool.noConfusion hcur
    · rw [if_pos (Or.inl hnext)]
      exact ⟨hnext, rfl⟩
  refine ⟨hmain.1, hmain.2, ?_, ?_⟩ <;>
    (unfold ServerCollisionDetector.detectBallPaddle
     dsimp only
     rw [if_pos hmain.1])
  · exact hmain.1
  · exact hmain.2

/-- Witness for C7: a ball at the left edge moving 55 px/tick toward a thin
paddle it does not currently touch; the next-tick box overlaps the paddle
and the hit is reported as continuous. -/
theorem continuous_detection_witness :
    (ServerCollisionDetector.detectBallPaddle
      { x := 0, y := 250, size := 12, vx := some 55, vy := some 0 }
      { x := 50, y := 200, width := 12, height := 140, side := Side.left }).hit
      = true ∧
    (ServerCollisionDetector.detectBallPaddle
      { x := 0, y := 250, size := 12, vx := some 55, vy := some 0 }
      { x := 50, y := 200, width := 12, height := 140, side := Side.left }).continuous
      = true := by
  have h := continuous_detection_prevents_tunneling
    { x := 0, y := 250, size := 12, vx := some 55, vy := some 0 }
    { x := 50, y := 200, width := 12, height := 140, side := Side.left }
    (by norm_num [ServerCollisionDetector.detectAABB, CollisionBall.toObject,
      CollisionPaddle.toObject, COLLISION_BUFFER])
    (by norm_num [ServerCollisionDetector.detectAABB, CollisionBall.toObject,
      CollisionPaddle.toObject, nextPosition, COLLISION_BUFFER])
  exact ⟨h.2.2.1, h.2.2.2⟩

theorem mul_abs_lt_mul_abs {a b : ℚ} (h : a < b) : a * |a| < b * |b| := by
  rcases le_or_lt 0 a with ha | ha
  · have hb : 0 < b := lt_of_le_of_lt ha h
    rw [abs_of_nonneg ha, abs_of_pos hb]
    nlinarith
  · rcases le_or_lt 0 b with hb | hb
    · have h1 : a * |a| < 0 := by rw [abs_of_neg ha]; nlinarith
      have h2 : 0 ≤ b * |b| := by rw [abs_of_nonneg hb]; nlinarith
      linarith
    · rw [abs_of_neg ha, abs_of_neg hb]
      nlinarith

theorem normalizedPosition_of_mem (h : ℚ) (h0 : 0 ≤ h) (h1 : h ≤ 1) :
    normalizedPosition h = (h - 0.5) * 2 := by
  unfold normalizedPosition clampedHitPosition
  rw [min_eq_right h1, max_eq_right h0]

/-- Claim C8: for hit positions in `[0,1]` whose normalized offset lies
outside the 0.15 center deadzone, the deflection angle
`normalizedPosition * (π / 2.2) * |normalizedPosition|` — written here as
`deflectionFactor h * (π / 2.2)` — is a strictly increasing, odd-symmetric
function of `h - 0.5`, and its absolute value never exceeds the maximum
angle `π / 2.2`. -/
theorem deflection_angle_monotone_odd_bounded :
    (∀ h1 h2 : ℚ, 0 ≤ h1 → h1 ≤ 1 → 0 ≤ h2 → h2 ≤ 1 →
      0.15 ≤ |normalizedPosition h1| → 0.15 ≤ |normalizedPosition h2| →
      h1 < h2 →
      (deflectionFactor h1 : ℝ) * (Real.pi / 2.2) <
        (deflectionFactor h2 : ℝ) * (Real.pi / 2.2)) ∧
    (∀ d : ℚ, 0 ≤ d → d ≤ 0.5 →
      (deflectionFactor (0.5 + d) : ℝ) * (Real.pi / 2.2) =
        -((deflectionFactor (0.5 - d) : ℝ) * (Real.pi / 2.2))) ∧
    (∀ h : ℚ, 0 ≤ h → h ≤ 1 →
      |(deflectionFactor h : ℝ) * (Real.pi / 2.2)| ≤ Real.pi / 2.2) := by
  have hA : (0 : ℝ) < Real.pi / 2.2 := div_pos Real.pi_pos (by norm_num)
  refine ⟨?_, ?_, ?_⟩
  · intro h1 h2 h10 h11 h20 h21 _ _ hlt
    have hq : deflectionFactor h1 < deflectionFactor h2 := by
      unfold deflectionFactor
      rw [normalizedPosition_of_mem h1 h10 h11, normalizedPosition_of_mem h2 h20 h21]
      exact mul_abs_lt_mul_abs (by linarith)
    have hr : (deflectionFactor h1 : ℝ) < (deflectionFactor h2 : ℝ) := by
      exact_mod_cast hq
    exact mul_lt_mul_of_pos_right hr hA
  · intro d hd0 hd1
    have key : deflectionFactor (0.5 + d) = -deflectionFactor (0.5 - d) := by
      unfold deflectionFactor
      rw [normalizedPosition_of_mem _ (by linarith) (by linarith),
          normalizedPosition_of_mem _ (by linarith) (by linarith)]
      have e1 : ((0.5 : ℚ) + d - 0.5) * 2 = 2 * d := by ring
      have e2 : ((0.5 : ℚ) - d - 0.5) * 2 = -(2 * d) := by ring
      rw [e1, e2, abs_neg]
      ring
    rw [key]
    push_cast
    ring
  · intro h h0 h1
    have hf : |deflectionFactor h| ≤ 1 := by
      have hn : |normalizedPosition h| ≤ 1 := by
        rw [normalizedPosition_of_mem h h0 h1, abs_le]
        constructor <;> linarith
      have hn0 : 0 ≤ |normalizedPosition h| := abs_nonneg _
      unfold deflectionFactor
      rw [abs_mul, abs_abs]
      nlinarith
    have hfr : |(deflectionFactor h : ℝ)| ≤ 1 := by
      rw [show |(deflectionFactor h : ℝ)| = ((|deflectionFactor h| : ℚ) : ℝ) from
        (Rat.cast_abs _).symm]
      exact_mod_cast hf
    rw [abs_mul, abs_of_pos hA]
    calc |(deflectionFactor h : ℝ)| * (Real.pi / 2.2)
        ≤ 1 * (Real.pi / 2.2) := by
          exact mul_le_mul_of_nonneg_right hfr (le_of_lt hA)
      _ = Real.pi / 2.2 := one_mul _

/-- Witness for C8: monotonicity between hit positions 0.2 and 0.8, odd
symmetry at offset 0.3, and the bound at 0.9, all outside the deadzone. -/
theorem deflection_angle_witness :
    ((deflectionFactor 0.2 : ℝ) * (Real.pi / 2.2) <
      (deflectionFactor 0.8 : ℝ) * (Real.pi / 2.2)) ∧
    ((deflectionFactor (0.5 + 0.3) : ℝ) * (Real.pi / 2.2) =
      -((deflectionFactor (0.5 - 0.3) : ℝ) * (Real.pi / 2.2))) ∧
    (|(deflectionFactor 0.9 : ℝ) * (Real.pi / 2.2)| ≤ Real.pi / 2.2) := by
  refine ⟨?_, ?_, ?_⟩
  · exact deflection_angle_monotone_odd_bounded.1 0.2 0.8 (by norm_num)
      (by norm_num) (by norm_num) (by norm_num)
      (by rw [normalizedPosition_of_mem 0.2 (by norm_num) (by norm_num)]
          norm_num [abs_of_nonneg])
      (by rw [normalizedPosition_of_mem 0.8 (by norm_num) (by norm_num)]
          norm_num [abs_of_nonneg])
      (by norm_num)
  · exact deflection_angle_monotone_odd_bounded.2.1 0.3 (by norm_num) (by norm_num)
  · exact deflection_angle_monotone_odd_bounded.2.2 0.9 (by norm_num) (by norm_num)

/-- Counterexample for C9 as stated: collecting `switch_sides` on scores
(left, right, top, bottom) = (1, 2, 3, 4) yields (2, 1, 4, 3) — left and
right swapped, top and bottom swapped — which is neither of the two single
4-cycles that move each score to the next side around the board. -/
theorem switch_sides_not_a_four_cycle :
    ((applyPickupEffect (fun _ => 0) 0
      { createInitialGameState true 0 with
        score := { left := 1, right := 2, top := 3, bottom := 4 } }
      { id := "sw", x := 0, y := 0, type := EffectType.switch_sides
        createdAt := 0, size := none }).score =
      { left := 2, right := 1, top := 4, bottom := 3 }) ∧
    ((applyPickupEffect (fun _ => 0) 0
      { createInitialGameState true 0 with
        score := { left := 1, right := 2, top := 3, bottom := 4 } }
      { id := "sw", x := 0, y := 0, type := EffectType.switch_sides
        createdAt := 0, size := none }).score ≠
      specRotateScoresCW { left := 1, right := 2, top := 3, bottom := 4 }) ∧
    ((applyPickupEffect (fun _ => 0) 0
      { createInitialGameState true 0 with
        score := { left := 1, right := 2, top := 3, bottom := 4 } }
      { id := "sw", x := 0, y := 0, type := EffectType.switch_sides
        createdAt := 0, size := none }).score ≠
      specRotateScoresCCW { left := 1, right := 2, top := 3, bottom := 4 }) := by
  have h1 : (applyPickupEffect (fun _ => 0) 0
      { createInitialGameState true 0 with
        score := { left := 1, right := 2, top := 3, bottom := 4 } }
      { id := "sw", x := 0, y := 0, type := EffectType.switch_sides
        createdAt := 0, size := none }).score =
      { left := 2, right := 1, top := 4, bottom := 3 } := rfl
  refine ⟨h1, ?_, ?_⟩ <;> rw [h1] <;> decide

/-- Claim C9 amended: `switch_sides` permutes the four scores by swapping
the two pairs of opposite sides (left ↔ right and top ↔ bottom, a double
transposition of order two — not a single 4-cycle), preserving the
multiset of score values. -/
theorem switch_sides_swaps_opposite_sides
    (rnd : ℕ → ℚ) (now : ℤ) (s : GameState) (pk : Pickup)
    (hty : pk.type = EffectType.switch_sides) :
    (applyPickupEffect rnd now s pk).score.left = s.score.right ∧
    (applyPickupEffect rnd now s pk).score.right = s.score.left ∧
    (applyPickupEffect rnd now s pk).score.top = s.score.bottom ∧
    (applyPickupEffect rnd now s pk).score.bottom = s.score.top ∧
    [(applyPickupEffect rnd now s pk).score.left,
     (applyPickupEffect rnd now s pk).score.right,
     (applyPickupEffect rnd now s pk).score.top,
     (applyPickupEffect rnd now s pk).score.bottom].Perm
      [s.score.left, s.score.right, s.score.top, s.score.bottom] := by
  obtain ⟨pid, px, py, ty, pca, psz⟩ := pk
  subst hty
  refine ⟨rfl, rfl, rfl, rfl, ?_⟩
  exact (List.Perm.swap s.score.left s.score.right
      [s.score.bottom, s.score.top]).trans
    (((List.Perm.swap s.score.top s.score.bottom []).cons s.score.right).cons
      s.score.left)

/-- Witness for C9 (amended): the swap evaluated on scores (1, 2, 3, 4). -/
theorem switch_sides_swaps_witness :
    (applyPickupEffect (fun _ => 0) 7
      { createInitialGameState true 0 with
        score := { left := 1, right := 2, top := 3, bottom := 4 } }
      { id := "sw", x := 0, y := 0, type := EffectType.switch_sides
        createdAt := 0, size := none }).score.left =
      ({ createInitialGameState true 0 with
         score := { left := 1, right := 2, top := 3, bottom := 4 } } :
         GameState).score.right :=
  (switch_sides_swaps_opposite_sides (fun _ => 0) 7
    { createInitialGameState true 0 with
      score := { left := 1, right := 2, top := 3, bottom := 4 } }
    { id := "sw", x := 0, y := 0, type := EffectType.switch_sides
      createdAt := 0, size := none } rfl).1

theorem reversePickupEffect_prev (s : GameState) (e : ActiveEffect) :
    (reversePickupEffect s e).ball.previousTouchedBy =
      s.ball.previousTouchedBy := by
  obtain ⟨ty, st, du, ov, sd, ex, ey⟩ := e
  cases ty <;> cases sd <;> cases ov <;> rfl

theorem foldl_expireStep_prev (now : ℤ) (l : List ActiveEffect) :
    ∀ (g : GameState) (acc : List ActiveEffect),
      ((l.foldl (expireStep now) (g, acc)).1).ball.previousTouchedBy =
        g.ball.previousTouchedBy := by
  induction l with
  | nil => intro g acc; rfl
  | cons e t ih =>
    intro g acc
    simp only [List.foldl_cons]
    by_cases he : effectExpired now e
    · rw [show expireStep now (g, acc) e = (reversePickupEffect g e, acc) from by
        unfold expireStep; rw [if_pos he]]
      rw [ih (reversePickupEffect g e) acc, reversePickupEffect_prev]
    · rw [show expireStep now (g, acc) e = (g, acc ++ [e]) from by
        unfold expireStep; rw [if_neg he]]
      exact ih g (acc ++ [e])

theorem updateActiveEffects_prev (now : ℤ) (s : GameState) :
    (updateActiveEffects now s).ball.previousTouchedBy =
      s.ball.previousTouchedBy := by
  have h := foldl_expireStep_prev now s.activeEffects s []
  unfold updateActiveEffects
  dsimp only
  split <;> split <;> exact h

theorem applyPickupEffect_prev (rnd : ℕ → ℚ) (now : ℤ) (s : GameState)
    (pk : Pickup) :
    (applyPickupEffect rnd now s pk).ball.previousTouchedBy =
      s.ball.previousTouchedBy := by
  obtain ⟨pid, px, py, ty, pca, psz⟩ := pk
  cases ty <;> rfl

theorem arkanoidStep_prev (s : GameState) :
    (arkanoidStep s).ball.previousTouchedBy = s.ball.previousTouchedBy := by
  unfold arkanoidStep
  repeat' first | split | dsimp only

theorem handleScoring_prev (r1 r2 : Bool) (now : ℤ) (s : GameState) (bh : Side) :
    (handleScoring r1 r2 now s bh).ball.previousTouchedBy = none := by
  unfold handleScoring
  dsimp only
  split <;> rfl

theorem ballMoveAndClamp_prev (r1 r2 : Bool) (s : GameState)
    (h : s.ball.previousTouchedBy = none) :
    (ballMoveAndClamp r1 r2 s).ball.previousTouchedBy = none := by
  unfold ballMoveAndClamp
  repeat' first | split | dsimp only
  all_goals first | exact h | rfl

theorem collectPickup_prev (rnd : ℕ → ℚ) (now : ℤ) (i : ℕ) (s : GameState) :
    (collectPickup rnd now i s).ball.previousTouchedBy =
      s.ball.previousTouchedBy := by
  unfold collectPickup
  split
  · rfl
  · exact applyPickupEffect_prev rnd now s _

theorem pauseExpiryStep_ball (now : ℤ) (s : GameState) :
    (pauseExpiryStep now s).ball = s.ball := by
  unfold pauseExpiryStep
  split <;> rfl

theorem ServerOp_preserves_prev (op : ServerOp) (s : GameState)
    (h : s.ball.previousTouchedBy = none) :
    (op.apply s).ball.previousTouchedBy = none := by
  cases op with
  | pauseExpiryOp now =>
    show (pauseExpiryStep now s).ball.previousTouchedBy = none
    rw [pauseExpiryStep_ball]
    exact h
  | aiPaddlesOp pd => exact h
  | forcesOp a b => exact h
  | aimLaunchOp a b => exact h
  | paddleHitOp side now a b c =>
    unfold ServerOp.apply paddleCollisionResponse
    cases side <;> exact h
  | arkanoidOp => exact (arkanoidStep_prev s).trans h
  | ballMoveOp r1 r2 => exact ballMoveAndClamp_prev r1 r2 s h
  | boundaryScoringOp r1 r2 now side =>
    exact handleScoring_prev r1 r2 now _ side
  | spawnPickupOp p t => exact h
  | collectPickupOp rnd now i => exact (collectPickup_prev rnd now i s).trans h
  | effectsOp now => exact (updateActiveEffects_prev now s).trans h
  | joinResetOp r1 r2 => exact h
  | resetRoomOp r now2 => rfl
  | stopGameOp => exact h

theorem Reachable_prev_none (s : GameState) (h : Reachable s) :
    s.ball.previousTouchedBy = none := by
  induction h with
  | init r now => rfl
  | step s op _ ih => exact ServerOp_preserves_prev op s ih

/-- Claim C10: under server-side evolution (no gamemaster state injection),
`ball.previousTouchedBy` is `none` in every reachable state — the
paddle-collision response overwrites `lastTouchedBy` without copying the
old value, and `resetBall` clears both — so the self-goal branch of
`handleScoring` that awards `previousTouchedBy` never fires, and every
self-goal on boundary `S` is awarded to the side opposite `S`. -/
theorem previousTouchedBy_always_none :
    (∀ s : GameState, Reachable s → s.ball.previousTouchedBy = none) ∧
    (∀ (s : GameState) (S : Side), Reachable s →
      s.ball.lastTouchedBy = some S →
      scoringPlayer s.ball S = S.opposite) := by
  refine ⟨Reachable_prev_none, fun s S hr hlt => ?_⟩
  have hp := Reachable_prev_none s hr
  unfold scoringPlayer
  rw [hlt, hp]
  cases S <;> rfl

/-- Witness for C10: the initial state is reachable with a null
`previousTouchedBy`, and after a left-paddle hit the self-goal on the left
boundary is awarded to the right side. -/
theorem previousTouchedBy_witness :
    Reachable (createInitialGameState true 0) ∧
    (createInitialGameState true 0).ball.previousTouchedBy = none ∧
    scoringPlayer
      ((ServerOp.paddleHitOp Side.left 0 1 1 1).apply
        (createInitialGameState true 0)).ball Side.left = Side.right := by
  have h0 : Reachable (createInitialGameState true 0) := Reachable.init true 0
  have h1 : Reachable ((ServerOp.paddleHitOp Side.left 0 1 1 1).apply
      (createInitialGameState true 0)) := Reachable.step _ _ h0
  exact ⟨h0, previousTouchedBy_always_none.1 _ h0,
    previousTouchedBy_always_none.2 _ Side.left h1 rfl⟩

end Pong
